import Mathlib

/-!
# Verification of the mender-setup wizard (cli package)

Shallow embedding of the setup wizard of `mendersoftware/mender-setup`:
the option model (`setupOptionsType`), the flag-normalization step
(`handleImplicitFlags`), the state-machine handlers (`askDeviceType`,
`askHostedMender`, `askDemoServer`, `askServerURL`, `askServerIP`,
`askServerCert`, `askHostedMenderCredentials`, `askPollingIntervals`),
the driver loop (`doSetup`) and the persistence step (`saveConfigOptions`).

Modelling conventions:
* stdin is a list of lines (each element is one line, without the trailing
  newline); reading from an exhausted list is the EOF / read-error case,
  which the source propagates as a fatal error.
* The urfave/cli context is split into the per-flag "explicitly set" bits
  (`FlagSet`, the result of `ctx.IsSet`) and the flag values.  Every flag
  of the setup command is declared with a `Destination` pointer into
  `setupOptionsType` (see cli.go), so the flag values and the option model
  share storage: `ctx.String`/`ctx.Int`/`ctx.Bool` read the corresponding
  `SetupOpts` field, and `ctx.Set` writes that field and turns the
  "explicitly set" bit on.
* External collaborators are parameters (`World`): the default device type
  derived from the device manifest / hostname, filesystem `os.Stat`
  existence checks, the compiled RFC-5322 e-mail regular expression
  (abstracted as a predicate, exactly as the source passes the compiled
  regex into `askCredentials`/`tryLoginhostedMender`), network login
  attempt outcomes, and the tenant-token request outcome.
* Go regexps with concrete patterns (`^[A-Za-z0-9-_]+$` for device types,
  the dotted-quad pattern for IPs, the unanchored URL pattern) are
  translated to executable predicates with the same meaning.
-/

namespace MenderSetup

/-! ## Constants (from the `Setup constants` block of setup.go) -/

def minimumPollInterval : Int := 5
def defaultServerIP : String := "127.0.0.1"
def defaultServerURL : String := "https://docker.mender.io"
def defaultInventoryPoll : Int := 28800
def defaultRetryPoll : Int := 300
def defaultUpdatePoll : Int := 1800
def demoInventoryPoll : Int := 5
def demoRetryPoll : Int := 30
def demoUpdatePoll : Int := 5
def demoControlMapExpiration : Int := 90
def demoControlMapBootExpiration : Int := 45
def hostedMenderURL : String := "https://hosted.mender.io"
def DefaultMenderDemoCertDir : String := "/usr/share/doc/mender-auth/examples"

/-- `getMenderDemoCertPath`: `path.Join(DefaultMenderDemoCertDir, "demo.crt")`.
`path.Join` of two clean non-empty segments inserts a single slash. -/
def getMenderDemoCertPath : String := DefaultMenderDemoCertDir ++ "/demo.crt"

/-- `errMsgConflictingArgumentsF` instantiated with "server-url"/"server-ip",
as produced by `handleImplicitFlags`. -/
def errMsgConflictingArguments : String :=
  "Conflicting arguments given, only one of the following flags may be " ++
  "given: \x7b\"server-url\", \"server-ip\"\x7d"

/-! ## Validators -/

/-- One character of the class `[A-Za-z0-9-_]` of `validDeviceRegularExpression`. -/
def isDeviceChar (c : Char) : Bool :=
  ('A' ≤ c && c ≤ 'Z') || ('a' ≤ c && c ≤ 'z') || ('0' ≤ c && c ≤ '9') ||
  c = '-' || c = '_'

/-- `validDeviceRegex.Match`: the pattern `^[A-Za-z0-9-_]+$` is anchored, so it
matches exactly the non-empty strings made of class characters. -/
def validDevice (s : String) : Bool :=
  !(s = "") && s.toList.all isDeviceChar

def isDigitChar (c : Char) : Bool := '0' ≤ c && c ≤ '9'

/-- Split a character list at every occurrence of `sep` (the splitting
behaviour of Go's submatch structure for the anchored IP pattern). -/
def splitOnChar (sep : Char) : List Char → List (List Char)
  | [] => [[]]
  | c :: rest =>
    if c = sep then [] :: splitOnChar sep rest
    else
      match splitOnChar sep rest with
      | [] => [[c]]
      | g :: gs => (c :: g) :: gs

def allDigits (l : List Char) : Bool :=
  !(l = []) && l.all isDigitChar

/-- One `[0-9]{1,3}` group of `validIPRegularExpression`. -/
def validOctet (l : List Char) : Bool := allDigits l && l.length ≤ 3

/-- `validIPRegex.Match`: the pattern
`^([0-9]{1,3}\.){3}[0-9]{1,3}(:[0-9]{1,5})?$` is anchored: four dot-separated
1-3 digit groups, optionally followed by a colon and 1-5 digits. -/
def validIP (s : String) : Bool :=
  let checkHost : List Char → Bool := fun h =>
    let parts := splitOnChar '.' h
    parts.length = 4 && parts.all validOctet
  match splitOnChar ':' s.toList with
  | [h] => checkHost h
  | [h, p] => checkHost h && allDigits p && p.length ≤ 5
  | _ => false

/-- Go's `\s` class is `[\t\n\f\r ]`. -/
def isGoWhitespace (c : Char) : Bool :=
  c.toNat = 9 || c.toNat = 10 || c.toNat = 12 || c.toNat = 13 || c.toNat = 32

/-- Whether `pre ++ c ++ _` (with `c` a non-whitespace character) starts at the
head of `l`. -/
def schemeHereOK (pre : List Char) (l : List Char) : Bool :=
  pre.isPrefixOf l &&
    (match l.drop pre.length with
     | c :: _ => !(isGoWhitespace c)
     | [] => false)

/-- Whether some position of `l` starts `http://` or `https://` followed by at
least one non-whitespace character. -/
def containsURLScheme : List Char → Bool
  | [] => false
  | c :: t =>
    schemeHereOK "http://".toList (c :: t) ||
    schemeHereOK "https://".toList (c :: t) ||
    containsURLScheme t

/-- `validURLRegex.Match` with the unanchored pattern
`(http|https):\/\/(\w+:{0,1}\w*@)?(\S+)(:[0-9]+)?((\/\S+?\/)*)(\/|\/([\w#!:.?+=&%@!\-\/]))?`.
All groups after `(\S+)` are optional and the user-info group consists of
non-whitespace characters, so a match exists somewhere in the string iff the
string contains `http://` or `https://` immediately followed by a
non-whitespace character. -/
def validURL (s : String) : Bool := containsURLScheme s.toList

/-- `strconv.Atoi`: optional sign, one or more decimal digits, value within
the 64-bit `int` range. -/
def parseDigits (l : List Char) : Option Nat :=
  if l = [] then none
  else if l.all isDigitChar then
    some (l.foldl (fun acc c => acc * 10 + (c.toNat - '0'.toNat)) 0)
  else none

def atoi (s : String) : Option Int :=
  let signed : Option Int :=
    match s.toList with
    | '+' :: rest => (parseDigits rest).map (fun n => (n : Int))
    | '-' :: rest => (parseDigits rest).map (fun n => -(n : Int))
    | l => (parseDigits l).map (fun n => (n : Int))
  match signed with
  | none => none
  | some v =>
    -- the 64-bit `int` range check of `strconv.Atoi`
    if v < -9223372036854775808 || 9223372036854775807 < v then none else some v

/-! ## Option model and flag bits -/

/-- `setupOptionsType` (setup.go). -/
structure SetupOpts where
  configPath : String := ""
  deviceType : String := ""
  username : String := ""
  password : String := ""
  serverURL : String := ""
  serverIP : String := ""
  serverCert : String := ""
  tenantToken : String := ""
  invPollInterval : Int := 0
  retryPollInterval : Int := 0
  updatePollInterval : Int := 0
  hostedMender : Bool := false
  demo : Bool := false
  demoServer : Bool := false
  demoIntervals : Bool := false
deriving Repr, DecidableEq

/-- The per-flag `ctx.IsSet` bits for the setup command's flags.  A field is
`true` iff the flag was supplied on the command line or written through
`ctx.Set`. -/
structure FlagSet where
  config : Bool := false
  data : Bool := false
  deviceType : Bool := false
  username : Bool := false
  password : Bool := false
  serverURL : Bool := false
  serverIP : Bool := false
  serverCert : Bool := false
  tenantToken : Bool := false
  inventoryPoll : Bool := false
  retryPoll : Bool := false
  updatePoll : Bool := false
  hostedMender : Bool := false
  demo : Bool := false
  demoServer : Bool := false
  demoPolling : Bool := false
  quiet : Bool := false
deriving Repr, DecidableEq

/-- The option model as initialized by CLI flag parsing when a flag is not
supplied: every `Destination` receives the flag's declared default `Value`
(cli.go), in particular `server-url` defaults to `defaultServerURL` and the
poll intervals to their compiled-in defaults. -/
def initialOpts : SetupOpts :=
  { serverURL := defaultServerURL
    invPollInterval := defaultInventoryPoll
    retryPollInterval := defaultRetryPoll
    updatePollInterval := defaultUpdatePoll }

/-! ## handleImplicitFlags (setup.go, lines 309-346)

`ctx.Set(name, v)` parses `v` into the flag's backing store — which is the
`Destination` field inside `setupOptionsType` — and marks the flag as set.
The explicit `opts.field = ...` assignments that follow each `ctx.Set` in the
source write the same stores and are kept where they are not identities. -/

/-- Result of `handleImplicitFlags`: the updated flag bits and option model
and the returned error (`none` = nil).  In the source the mutations made
before a conflict is detected persist even when the error is returned. -/
structure HIFResult where
  fs : FlagSet
  opts : SetupOpts
  err : Option String
deriving Repr, DecidableEq

def handleImplicitFlags (fs : FlagSet) (opts : SetupOpts) : HIFResult :=
  -- if ctx.IsSet("demo"): ctx.Set("demo-server","true"); ctx.Set("demo-polling","true")
  let fs' := if fs.demo then { fs with demoServer := true, demoPolling := true } else fs
  let opts' := if fs.demo then { opts with demoServer := true, demoIntervals := true } else opts
  -- if ctx.IsSet("update-poll"): ctx.Set("demo-polling","false"); demoIntervals=false;
  --   updatePollInterval = ctx.Int("update-poll")  (identity: shared storage)
  let fs' := if fs.updatePoll then { fs' with demoPolling := true } else fs'
  let opts' := if fs.updatePoll then { opts' with demoIntervals := false } else opts'
  -- if ctx.IsSet("inventory-poll"): likewise
  let fs' := if fs.inventoryPoll then { fs' with demoPolling := true } else fs'
  let opts' := if fs.inventoryPoll then { opts' with demoIntervals := false } else opts'
  -- if ctx.IsSet("retry-poll"): likewise
  let fs' := if fs.retryPoll then { fs' with demoPolling := true } else fs'
  let opts' := if fs.retryPoll then { opts' with demoIntervals := false } else opts'
  -- if ctx.IsSet("server-url") || ctx.IsSet("server-ip")
  if fs.serverURL || fs.serverIP then
    if fs.serverURL && fs.serverIP then
      { fs := fs', opts := opts', err := some errMsgConflictingArguments }
    else
      let fs'' :=
        if fs.serverIP then { fs' with demoServer := true }
        else if fs.serverURL && !(opts.serverURL = defaultServerURL) then
          { fs' with demoServer := true }
        else fs'
      let opts'' :=
        if fs.serverIP then { opts' with demoServer := true }
        else if fs.serverURL && !(opts.serverURL = defaultServerURL) then
          { opts' with demoServer := false }
        else opts'
      -- ctx.Set("hosted-mender", "false"); opts.hostedMender = false
      { fs := { fs'' with hostedMender := true }
        opts := { opts'' with hostedMender := false }
        err := none }
  else
    { fs := fs', opts := opts', err := none }

/-! ## Prompt primitives -/

/-- Result of a prompting computation: the produced value and the remaining
stdin, a stdin read failure (EOF), or divergence (an infinite re-prompt loop
that consumes no input). -/
inductive PRes (α : Type) where
  | ok (a : α) (stdin : List String)
  | ioErr
  | hang
deriving Repr, DecidableEq

def PRes.bind {α β : Type} : PRes α → (α → List String → PRes β) → PRes β
  | .ok a stdin, f => f a stdin
  | .ioErr, _ => .ioErr
  | .hang, _ => .hang

/-- `stdinReader.promptUser`: read one line; an exhausted stream is the
read-error case. -/
def promptUser : List String → PRes String
  | [] => .ioErr
  | s :: rest => .ok s rest

/-- The retry loop of `stdinReader.promptYN`, entered with the first answer
already read. -/
def promptYNLoop (dflt : Bool) : String → List String → PRes Bool
  | rsp, stdin =>
    if rsp = "Y" || rsp = "y" then .ok true stdin
    else if rsp = "N" || rsp = "n" then .ok false stdin
    else if rsp = "" then .ok dflt stdin
    else
      match stdin with
      | [] => .ioErr
      | s :: rest => promptYNLoop dflt s rest

/-- `stdinReader.promptYN`. -/
def promptYN (dflt : Bool) (stdin : List String) : PRes Bool :=
  (promptUser stdin).bind fun rsp rest => promptYNLoop dflt rsp rest

/-! ## External collaborators -/

/-- Outcome of one `client.Do(authReq)` login attempt in
`tryLoginhostedMender`: a name-resolution failure (the error whose text
contains "Temporary failure in name resolution"), any other transport error,
or an HTTP response with its status code and body. -/
inductive LoginAttempt where
  | dnsFailure
  | otherFailure
  | status (code : Nat) (body : String)
deriving Repr, DecidableEq

/-- The external collaborators of one wizard run. -/
structure World where
  /-- `getDefaultDeviceType`: device manifest value, falling back to the
  host name, falling back to "unknown". -/
  defaultDevType : String := "unknown"
  /-- `os.Stat(path)` succeeding, used by `askServerCert`. -/
  fileExists : String → Bool := fun _ => false
  /-- The compiled `validEmailRegularExpression` (RFC-5322) as a predicate;
  the source passes the compiled regex around the same way. -/
  validEmail : String → Bool := fun _ => true
  /-- Outcome of `getTenantToken`: `some token` when the tenant-token request
  and its JSON decoding succeed, `none` when any of them fails. -/
  tenantTokenRsp : Option String := some ""

/-- The mutable state threaded through the wizard loop: the option model,
the remaining stdin lines, and the remaining login-attempt outcomes. -/
structure RunState where
  opts : SetupOpts
  stdin : List String
  attempts : List LoginAttempt
deriving Repr, DecidableEq

/-! ## State handlers -/

/-- The wizard states (the `iota` enum of setup.go). `stateInvalid` is only
ever paired with a non-nil error and is represented by the failure results. -/
inductive WizState where
  | deviceType
  | hostedMender
  | demoServer
  | serverURL
  | serverIP
  | serverCert
  | credentials
  | polling
  | done
deriving Repr, DecidableEq

/-- Result of one state handler: the next state with the updated run state,
a propagated fatal error, or divergence. -/
inductive HRes where
  | ok (next : WizState) (rs : RunState)
  | fail
  | hang
deriving Repr, DecidableEq

/-- The validation loop of `askDeviceType`, entered with the first typed
answer.  An empty answer is replaced by the default device type and the
loop re-checks that value on its next iteration without reading input:
when the default is itself empty the source spins forever, which the model
reports as `hang`. -/
def deviceTypeLoop (dflt : String) : String → List String → PRes String
  | cur, stdin =>
    let cur' := if cur = "" then dflt else cur
    if cur' = "" then .hang
    else if validDevice cur' then .ok cur' stdin
    else
      match stdin with
      | [] => .ioErr
      | s :: rest => deviceTypeLoop dflt s rest

/-- `askDeviceType` (setup.go, lines 395-426).  The regex always compiles,
so the `stateInvalid` compile-failure branch is dead. -/
def askDeviceType (w : World) (rs : RunState) : HRes :=
  -- if validDeviceRegex.Match(ctx.String("device-type")) — the flag's
  -- Destination is opts.deviceType
  if validDevice rs.opts.deviceType then .ok .hostedMender rs
  else
    match (promptUser rs.stdin).bind fun first rest =>
            deviceTypeLoop w.defaultDevType first rest with
    | .ok v stdin' =>
      .ok .hostedMender { rs with opts := { rs.opts with deviceType := v }, stdin := stdin' }
    | .ioErr => .fail
    | .hang => .hang

/-- `askHostedMender` (setup.go, lines 428-447). -/
def askHostedMender (fs : FlagSet) (rs : RunState) : HRes :=
  match (if !fs.hostedMender then
      (promptYN true rs.stdin).bind fun b rest =>
        .ok { rs.opts with hostedMender := b } rest
    else .ok rs.opts rs.stdin : PRes SetupOpts) with
  | .ok opts stdin' =>
    if opts.hostedMender then
      .ok .credentials { rs with opts := { opts with serverURL := hostedMenderURL }, stdin := stdin' }
    else
      .ok .demoServer { rs with opts := opts, stdin := stdin' }
  | .ioErr => .fail
  | .hang => .hang

/-- `askDemoServer` (setup.go, lines 449-474). -/
def askDemoServer (fs : FlagSet) (rs : RunState) : HRes :=
  match (if !fs.demoServer then
      (promptYN true rs.stdin).bind fun b rest =>
        .ok { rs.opts with demoServer := b } rest
    else .ok rs.opts rs.stdin : PRes SetupOpts) with
  | .ok opts stdin' =>
    let next : WizState :=
      if opts.hostedMender then
        if opts.demoIntervals then .done else .polling
      else
        if opts.demoServer then .serverIP else .serverURL
    .ok next { rs with opts := opts, stdin := stdin' }
  | .ioErr => .fail
  | .hang => .hang

/-- The validation loop of `askServerURL`.  An empty value is replaced by
`defaultServerURL` and re-checked on the next iteration; since that constant
is non-empty the substitution and the re-check are folded into one step. -/
def serverURLLoop : String → List String → PRes String
  | cur, stdin =>
    let cur' := if cur = "" then defaultServerURL else cur
    if validURL cur' then .ok cur' stdin
    else
      match stdin with
      | [] => .ioErr
      | s :: rest => serverURLLoop s rest

/-- `askServerURL` (setup.go, lines 476-506).  With the flag set the loop
starts from `ctx.String("server-url")`, which is the same storage as
`opts.serverURL`. -/
def askServerURL (fs : FlagSet) (rs : RunState) : HRes :=
  match (if fs.serverURL then .ok rs.opts.serverURL rs.stdin
      else promptUser rs.stdin : PRes String).bind
      (fun cur rest => serverURLLoop cur rest) with
  | .ok v stdin' =>
    .ok .serverCert { rs with opts := { rs.opts with serverURL := v }, stdin := stdin' }
  | .ioErr => .fail
  | .hang => .hang

/-- The validation loop of `askServerIP`: an empty answer takes the default
and breaks immediately. -/
def serverIPLoop : String → List String → PRes String
  | cur, stdin =>
    if cur = "" then .ok defaultServerIP stdin
    else if validIP cur then .ok cur stdin
    else
      match stdin with
      | [] => .ioErr
      | s :: rest => serverIPLoop s rest

/-- `askServerIP` (setup.go, lines 508-545). -/
def askServerIP (fs : FlagSet) (rs : RunState) : HRes :=
  -- if !ctx.IsSet("server-url") { opts.serverURL = defaultServerURL }
  let opts := if !fs.serverURL then { rs.opts with serverURL := defaultServerURL } else rs.opts
  if validIP opts.serverIP then
    -- IP added by cmdline
    .ok .polling { rs with opts := opts }
  else
    match (promptUser rs.stdin).bind fun first rest => serverIPLoop first rest with
    | .ok v stdin' =>
      .ok .polling { rs with opts := { opts with serverIP := v }, stdin := stdin' }
    | .ioErr => .fail
    | .hang => .hang

/-- The validation loop of `askServerCert`: empty means "no certificate",
otherwise the file must exist (`os.Stat`). -/
def serverCertLoop (w : World) : String → List String → PRes String
  | cur, stdin =>
    if cur = "" then .ok cur stdin
    else if w.fileExists cur then .ok cur stdin
    else
      match stdin with
      | [] => .ioErr
      | s :: rest => serverCertLoop w s rest

/-- `askServerCert` (setup.go, lines 547-574). -/
def askServerCert (fs : FlagSet) (w : World) (rs : RunState) : HRes :=
  if fs.serverCert then .ok .polling rs
  else
    match (promptUser rs.stdin).bind fun first rest => serverCertLoop w first rest with
    | .ok v stdin' =>
      .ok .polling { rs with opts := { rs.opts with serverCert := v }, stdin := stdin' }
    | .ioErr => .fail
    | .hang => .hang

/-- The e-mail re-prompt loop of `askCredentials`. -/
def emailLoop (w : World) : String → List String → PRes String
  | cur, stdin =>
    if w.validEmail cur then .ok cur stdin
    else
      match stdin with
      | [] => .ioErr
      | s :: rest => emailLoop w s rest

/-- The non-blank-password loop of `askCredentials`. -/
def passwordLoop : String → List String → PRes String
  | cur, stdin =>
    if !(cur = "") then .ok cur stdin
    else
      match stdin with
      | [] => .ioErr
      | s :: rest => passwordLoop s rest

/-- `askCredentials` (setup.go, lines 348-393). -/
def askCredentials (w : World) (opts : SetupOpts) (stdin : List String) : PRes SetupOpts :=
  (promptUser stdin).bind fun u stdin1 =>
  (emailLoop w u stdin1).bind fun u' stdin2 =>
  (promptUser stdin2).bind fun p stdin3 =>
  (passwordLoop p stdin3).bind fun p' stdin4 =>
  .ok { opts with username := u', password := p' } stdin4

/-- Result of `tryLoginhostedMender`. -/
inductive LoginRes where
  | ok (opts : SetupOpts) (stdin : List String) (attempts : List LoginAttempt)
  | ioErr
  /-- a `client.Do` error other than the name-resolution failure is returned
  as-is (fatal) -/
  | connErr
  | unexpectedStatus (code : Nat)
  /-- failure of the follow-up tenant-token request or its JSON decoding -/
  | tokenErr
  /-- model artifact: the supplied attempt outcomes ran out (the source
  would issue a further network request) -/
  | exhausted
deriving Repr, DecidableEq

/-- `tryLoginhostedMender` (setup.go, lines 619-680).  One `LoginAttempt` is
consumed per iteration of the retry loop;  after a 200 response the body is
the user token and `getTenantToken` stores `w.tenantTokenRsp` into the
option model. -/
def tryLoginhostedMender (w : World) :
    SetupOpts → List String → List LoginAttempt → LoginRes
  | _, _, [] => .exhausted
  | opts, stdin, a :: rest =>
    match a with
    | .dnsFailure =>
      match askCredentials w opts stdin with
      | .ok opts' stdin' => tryLoginhostedMender w opts' stdin' rest
      | _ => .ioErr
    | .otherFailure => .connErr
    | .status code _body =>
      if code = 401 then
        match askCredentials w opts stdin with
        | .ok opts' stdin' => tryLoginhostedMender w opts' stdin' rest
        | _ => .ioErr
      else if code = 200 then
        match w.tenantTokenRsp with
        | none => .tokenErr
        | some t => .ok { opts with tenantToken := t } stdin rest
      else .unexpectedStatus code

/-- `askHostedMenderCredentials` (setup.go, lines 682-710). -/
def askHostedMenderCredentials (fs : FlagSet) (w : World) (rs : RunState) : HRes :=
  if fs.tenantToken then .ok .polling rs
  else
    match (if !(fs.username && fs.password) then askCredentials w rs.opts rs.stdin
      else if !(w.validEmail rs.opts.username) then askCredentials w rs.opts rs.stdin
      else .ok rs.opts rs.stdin : PRes SetupOpts) with
    | .ok opts stdin' =>
      match tryLoginhostedMender w opts stdin' rs.attempts with
      | .ok opts' stdin'' attempts' =>
        .ok .polling { opts := opts', stdin := stdin'', attempts := attempts' }
      | _ => .fail
    | .ioErr => .fail
    | .hang => .hang

/-- The shared validation loop of `askUpdatePoll` / `askInventoryPoll` /
`askRetryPoll`, entered with the first answer. -/
def pollLoop (dflt : Int) : String → List String → PRes Int
  | rsp, stdin =>
    if rsp = "" then .ok dflt stdin
    else
      match atoi rsp with
      | none =>
        match stdin with
        | [] => .ioErr
        | s :: rest => pollLoop dflt s rest
      | some v =>
        if v < minimumPollInterval then
          match stdin with
          | [] => .ioErr
          | s :: rest => pollLoop dflt s rest
        else .ok v stdin

/-- `askUpdatePoll` (setup.go, lines 712-741). -/
def askUpdatePoll (fs : FlagSet) (opts : SetupOpts) (stdin : List String) : PRes SetupOpts :=
  if !fs.updatePoll || opts.updatePollInterval < minimumPollInterval then
    (promptUser stdin).bind fun rsp stdin1 =>
    (pollLoop defaultUpdatePoll rsp stdin1).bind fun v stdin2 =>
    .ok { opts with updatePollInterval := v } stdin2
  else .ok opts stdin

/-- `askInventoryPoll` (setup.go, lines 743-772). -/
def askInventoryPoll (fs : FlagSet) (opts : SetupOpts) (stdin : List String) : PRes SetupOpts :=
  if !fs.inventoryPoll || opts.invPollInterval < minimumPollInterval then
    (promptUser stdin).bind fun rsp stdin1 =>
    (pollLoop defaultInventoryPoll rsp stdin1).bind fun v stdin2 =>
    .ok { opts with invPollInterval := v } stdin2
  else .ok opts stdin

/-- `askRetryPoll` (setup.go, lines 774-803). -/
def askRetryPoll (fs : FlagSet) (opts : SetupOpts) (stdin : List String) : PRes SetupOpts :=
  if !fs.retryPoll || opts.retryPollInterval < minimumPollInterval then
    (promptUser stdin).bind fun rsp stdin1 =>
    (pollLoop defaultRetryPoll rsp stdin1).bind fun v stdin2 =>
    .ok { opts with retryPollInterval := v } stdin2
  else .ok opts stdin

/-- `askPollingIntervals` (setup.go, lines 805-832). -/
def askPollingIntervals (fs : FlagSet) (rs : RunState) : HRes :=
  match (if !fs.demoPolling then
      (promptYN true rs.stdin).bind fun b rest =>
        .ok { rs.opts with demoIntervals := b } rest
    else .ok rs.opts rs.stdin : PRes SetupOpts) with
  | .ok opts stdin' =>
    if opts.demoIntervals then
      .ok .done
        { rs with
          opts := { opts with
                    updatePollInterval := demoUpdatePoll
                    invPollInterval := demoInventoryPoll
                    retryPollInterval := demoRetryPoll }
          stdin := stdin' }
    else
      match (askUpdatePoll fs opts stdin').bind fun o1 s1 =>
            (askInventoryPoll fs o1 s1).bind fun o2 s2 =>
            askRetryPoll fs o2 s2 with
      | .ok opts' stdin'' => .ok .done { rs with opts := opts', stdin := stdin'' }
      | .ioErr => .fail
      | .hang => .hang
  | .ioErr => .fail
  | .hang => .hang

/-! ## The wizard loop (`doSetup`) -/

/-- One dispatch of the `switch state` inside `doSetup`'s loop. -/
def stepState (fs : FlagSet) (w : World) : WizState → RunState → HRes
  | .deviceType, rs => askDeviceType w rs
  | .hostedMender, rs => askHostedMender fs rs
  | .demoServer, rs => askDemoServer fs rs
  | .serverURL, rs => askServerURL fs rs
  | .serverIP, rs => askServerIP fs rs
  | .serverCert, rs => askServerCert fs w rs
  | .credentials, rs => askHostedMenderCredentials fs w rs
  | .polling, rs => askPollingIntervals fs rs
  | .done, rs => .ok .done rs

/-- Result of the `for state != stateDone` loop. -/
inductive RunRes where
  | ok (rs : RunState)
  | fail
  | hang
  | outOfFuel
deriving Repr, DecidableEq

/-- The `for state != stateDone` loop of `doSetup` (setup.go, lines 848-877).
The fuel bounds the number of dispatches; every transition strictly descends
the state graph, so any fuel ≥ 9 is enough for the loop itself. -/
def runWizard (fs : FlagSet) (w : World) : Nat → WizState → RunState → RunRes
  | 0, _, _ => .outOfFuel
  | Nat.succ n, st, rs =>
    if st = .done then .ok rs
    else
      match stepState fs w st rs with
      | .ok next rs' => runWizard fs w n next rs'
      | .fail => .fail
      | .hang => .hang

/-! ## Persistence (`saveConfigOptions`) -/

/-- The fields of `conf.MenderConfigFromFile` written by the wizard, plus
the server list entry type. -/
structure MenderServer where
  serverURL : String
deriving Repr, DecidableEq

structure MenderConfigFromFile where
  deviceTypeFile : String := ""
  updateControlMapExpirationTimeSeconds : Int := 0
  updateControlMapBootExpirationTimeSeconds : Int := 0
  updatePollIntervalSeconds : Int := 0
  inventoryPollIntervalSeconds : Int := 0
  retryPollIntervalSeconds : Int := 0
  serverCertificate : String := ""
  serverURL : String := ""
  tenantToken : String := ""
  servers : List MenderServer := []
deriving Repr, DecidableEq

/-- `saveConfigOptions` (setup.go, lines 881-951) as the transformation of
the configuration value handed to `conf.SaveConfigFile`.  The file write,
the device-identity file, `/etc/hosts` and the local-trust install are
external I/O.  `stateDirPath` stands for `conf.GetStateDirPath()`. -/
def saveConfigOptions (stateDirPath : String) (opts : SetupOpts)
    (config : MenderConfigFromFile) : MenderConfigFromFile :=
  let config :=
    if opts.demoIntervals then
      { config with
        updatePollIntervalSeconds :=
          if minimumPollInterval < opts.updatePollInterval then opts.updatePollInterval
          else demoUpdatePoll
        inventoryPollIntervalSeconds :=
          if minimumPollInterval < opts.invPollInterval then opts.invPollInterval
          else demoInventoryPoll
        retryPollIntervalSeconds :=
          if minimumPollInterval < opts.retryPollInterval then opts.retryPollInterval
          else demoRetryPoll
        updateControlMapExpirationTimeSeconds := demoControlMapExpiration
        updateControlMapBootExpirationTimeSeconds := demoControlMapBootExpiration }
    else
      { config with
        inventoryPollIntervalSeconds := opts.invPollInterval
        updatePollIntervalSeconds := opts.updatePollInterval
        retryPollIntervalSeconds := opts.retryPollInterval }
  let config :=
    if opts.demoServer && !opts.hostedMender then
      { config with serverCertificate := getMenderDemoCertPath }
    else
      { config with serverCertificate := opts.serverCert }
  let config := { config with tenantToken := opts.tenantToken }
  let config :=
    if config.deviceTypeFile = "" then
      { config with deviceTypeFile := stateDirPath ++ "/device_type" }
    else config
  { config with
    servers := [{ serverURL := opts.serverURL }]
    serverURL := "" }

/-! ## The setup CLI pipeline (`setupCLIHandler` → `doSetup`) -/

/-- Result of one full invocation of the setup command. -/
inductive PipeRes where
  /-- `handleImplicitFlags` returned the configuration-conflict error: the
  wizard never started and no prompt was shown -/
  | confErr (msg : String)
  | wizErr
  | hang
  | outOfFuel
  | ok (config : MenderConfigFromFile) (rs : RunState)
deriving Repr, DecidableEq

/-- The setup pipeline: `setupCLIHandler` runs `handleImplicitFlags` and, on
success, `handleCLIOptions` runs `doSetup`, which walks the state machine
from `stateDeviceType` and persists via `saveConfigOptions`. -/
def setupPipeline (fuel : Nat) (fs : FlagSet) (opts : SetupOpts) (w : World)
    (stateDirPath : String) (config0 : MenderConfigFromFile)
    (stdin : List String) (attempts : List LoginAttempt) : PipeRes :=
  match (handleImplicitFlags fs opts).err with
  | some msg => .confErr msg
  | none =>
    match runWizard (handleImplicitFlags fs opts).fs w fuel .deviceType
        ⟨(handleImplicitFlags fs opts).opts, stdin, attempts⟩ with
    | .ok rs => .ok (saveConfigOptions stateDirPath rs.opts config0) rs
    | .fail => .wizErr
    | .hang => .hang
    | .outOfFuel => .outOfFuel

/-- The "overlapping global flags" merge in `setupCLIHandler`
(cli.go, lines 296-301), verbatim including the dead condition. -/
def mergeConfigPathFlags (fs : FlagSet) (runConfig : String)
    (setupConfigPath : String) : String × String :=
  if fs.config && !fs.config then
    -- runOptions.setupOptions.configPath = runOptions.config
    (runConfig, runConfig)
  else
    -- runOptions.config = runOptions.setupOptions.configPath
    (setupConfigPath, setupConfigPath)

/-! ## Basic lemmas about the validation loops -/

theorem validDevice_ne_empty {s : String} (h : validDevice s = true) : s ≠ "" := by
  intro hs
  simp [validDevice, hs] at h

theorem deviceTypeLoop_ok_valid (dflt : String) :
    ∀ stdin cur v stdin', deviceTypeLoop dflt cur stdin = .ok v stdin' →
      validDevice v = true := by
  intro stdin
  induction stdin with
  | nil =>
    intro cur v stdin' h
    simp only [deviceTypeLoop] at h
    split_ifs at h <;>
      first
        | exact PRes.noConfusion h
        | (injection h with h1 h2; subst h1; assumption)
  | cons s rest ih =>
    intro cur v stdin' h
    simp only [deviceTypeLoop] at h
    split_ifs at h <;>
      first
        | exact PRes.noConfusion h
        | (injection h with h1 h2; subst h1; assumption)
        | exact ih s v stdin' h

/-! ## Frame lemmas for the state handlers

Each lemma describes the handler's successful outcome: which state it
transitions to and that it only writes its own fields of the option model. -/

/-- Equality of the polling-related fields of two option models. -/
def PollFieldsEq (a b : SetupOpts) : Prop :=
  a.updatePollInterval = b.updatePollInterval ∧
  a.invPollInterval = b.invPollInterval ∧
  a.retryPollInterval = b.retryPollInterval ∧
  a.demoIntervals = b.demoIntervals

theorem pollFieldsEq_refl (a : SetupOpts) : PollFieldsEq a a := ⟨rfl, rfl, rfl, rfl⟩

theorem pollFieldsEq_trans {a b c : SetupOpts} (h1 : PollFieldsEq a b)
    (h2 : PollFieldsEq b c) : PollFieldsEq a c :=
  ⟨h1.1.trans h2.1, h1.2.1.trans h2.2.1, h1.2.2.1.trans h2.2.2.1, h1.2.2.2.trans h2.2.2.2⟩

theorem askDeviceType_ok {w : World} {rs : RunState} {next : WizState} {rs' : RunState}
    (h : askDeviceType w rs = .ok next rs') :
    next = .hostedMender ∧ rs'.attempts = rs.attempts ∧
    rs'.opts.hostedMender = rs.opts.hostedMender ∧
    rs'.opts.demoServer = rs.opts.demoServer ∧
    rs'.opts.serverURL = rs.opts.serverURL ∧
    rs'.opts.serverCert = rs.opts.serverCert ∧
    PollFieldsEq rs'.opts rs.opts ∧
    validDevice rs'.opts.deviceType = true := by
  unfold askDeviceType at h
  split_ifs at h with h1
  · injection h with h2 h3
    subst h2; subst h3
    exact ⟨rfl, rfl, rfl, rfl, rfl, rfl, pollFieldsEq_refl _, h1⟩
  · split at h
    · rename_i v stdin' hloop
      injection h with h2 h3
      subst h2; subst h3
      refine ⟨rfl, rfl, rfl, rfl, rfl, rfl, pollFieldsEq_refl _, ?_⟩
      cases hstdin : rs.stdin with
      | nil => rw [hstdin] at hloop; simp [promptUser, PRes.bind] at hloop
      | cons s rest =>
        rw [hstdin] at hloop
        simp only [promptUser, PRes.bind] at hloop
        exact deviceTypeLoop_ok_valid _ _ _ _ _ hloop
    · exact HRes.noConfusion h
    · exact HRes.noConfusion h

theorem askHostedMender_ok {fs : FlagSet} {rs : RunState} {next : WizState} {rs' : RunState}
    (h : askHostedMender fs rs = .ok next rs') :
    rs'.attempts = rs.attempts ∧
    rs'.opts.demoServer = rs.opts.demoServer ∧
    rs'.opts.serverCert = rs.opts.serverCert ∧
    PollFieldsEq rs'.opts rs.opts ∧
    ((next = .credentials ∧ rs'.opts.hostedMender = true ∧
        rs'.opts.serverURL = hostedMenderURL) ∨
     (next = .demoServer ∧ rs'.opts.hostedMender = false ∧
        rs'.opts.serverURL = rs.opts.serverURL)) := by
  unfold askHostedMender at h
  split at h
  · rename_i opts stdin' hans
    have hframe : opts = { rs.opts with hostedMender := opts.hostedMender } := by
      split_ifs at hans with hflag
      · cases hyn : promptYN true rs.stdin with
        | ok b rest =>
          rw [hyn] at hans
          simp only [PRes.bind] at hans
          injection hans with h4 h5
          subst h4; simp
        | ioErr => rw [hyn] at hans; simp [PRes.bind] at hans
        | hang => rw [hyn] at hans; simp [PRes.bind] at hans
      · injection hans with h4 h5
        subst h4; simp
    split_ifs at h with hhm
    · injection h with h2 h3
      subst h2; subst h3
      exact ⟨rfl, by rw [hframe], by rw [hframe],
        ⟨by rw [hframe], by rw [hframe], by rw [hframe], by rw [hframe]⟩,
        Or.inl ⟨rfl, by simpa using hhm, rfl⟩⟩
    · injection h with h2 h3
      subst h2; subst h3
      exact ⟨rfl, by rw [hframe], by rw [hframe],
        ⟨by rw [hframe], by rw [hframe], by rw [hframe], by rw [hframe]⟩,
        Or.inr ⟨rfl, by simpa using hhm, by rw [hframe]⟩⟩
  · exact HRes.noConfusion h
  · exact HRes.noConfusion h

theorem askDemoServer_ok {fs : FlagSet} {rs : RunState} {next : WizState} {rs' : RunState}
    (h : askDemoServer fs rs = .ok next rs') :
    rs'.attempts = rs.attempts ∧
    rs'.opts.hostedMender = rs.opts.hostedMender ∧
    rs'.opts.serverURL = rs.opts.serverURL ∧
    rs'.opts.serverCert = rs.opts.serverCert ∧
    PollFieldsEq rs'.opts rs.opts ∧
    (rs.opts.hostedMender = false →
      ((next = .serverIP ∧ rs'.opts.demoServer = true) ∨
       (next = .serverURL ∧ rs'.opts.demoServer = false))) := by
  unfold askDemoServer at h
  split at h
  · rename_i opts stdin' hans
    have hframe : opts = { rs.opts with demoServer := opts.demoServer } := by
      split_ifs at hans with hflag
      · cases hyn : promptYN true rs.stdin with
        | ok b rest =>
          rw [hyn] at hans
          simp only [PRes.bind] at hans
          injection hans with h4 h5
          subst h4; simp
        | ioErr => rw [hyn] at hans; simp [PRes.bind] at hans
        | hang => rw [hyn] at hans; simp [PRes.bind] at hans
      · injection hans with h4 h5
        subst h4; simp
    have hhm : opts.hostedMender = rs.opts.hostedMender := by rw [hframe]
    injection h with h2 h3
    subst h2; subst h3
    refine ⟨rfl, by rw [hframe], by rw [hframe], by rw [hframe],
      ⟨by rw [hframe], by rw [hframe], by rw [hframe], by rw [hframe]⟩, ?_⟩
    intro hfalse
    rw [hhm, hfalse]
    by_cases hds : opts.demoServer
    · exact Or.inl ⟨by simp [hds], hds⟩
    · exact Or.inr ⟨by simp [hds], by simpa using hds⟩
  · exact HRes.noConfusion h
  · exact HRes.noConfusion h

theorem askServerURL_ok {fs : FlagSet} {rs : RunState} {next : WizState} {rs' : RunState}
    (h : askServerURL fs rs = .ok next rs') :
    next = .serverCert ∧ rs'.attempts = rs.attempts ∧
    rs'.opts.hostedMender = rs.opts.hostedMender ∧
    rs'.opts.demoServer = rs.opts.demoServer ∧
    rs'.opts.serverCert = rs.opts.serverCert ∧
    PollFieldsEq rs'.opts rs.opts := by
  unfold askServerURL at h
  split at h
  · rename_i v stdin' hloop
    injection h with h2 h3
    subst h2; subst h3
    exact ⟨rfl, rfl, rfl, rfl, rfl, pollFieldsEq_refl _⟩
  · exact HRes.noConfusion h
  · exact HRes.noConfusion h

theorem askServerIP_ok {fs : FlagSet} {rs : RunState} {next : WizState} {rs' : RunState}
    (h : askServerIP fs rs = .ok next rs') :
    next = .polling ∧ rs'.attempts = rs.attempts ∧
    rs'.opts.hostedMender = rs.opts.hostedMender ∧
    rs'.opts.demoServer = rs.opts.demoServer ∧
    rs'.opts.serverCert = rs.opts.serverCert ∧
    PollFieldsEq rs'.opts rs.opts ∧
    (fs.serverURL = false → rs'.opts.serverURL = defaultServerURL) ∧
    (fs.serverURL = true → rs'.opts.serverURL = rs.opts.serverURL) := by
  unfold askServerIP at h
  cases hflag : fs.serverURL with
  | true =>
    rw [hflag] at h
    simp only [Bool.not_true, Bool.false_eq_true, if_false] at h
    split_ifs at h with hip
    · injection h with h2 h3
      subst h2; subst h3
      exact ⟨rfl, rfl, rfl, rfl, rfl, pollFieldsEq_refl _,
        by simp, fun _ => rfl⟩
    · split at h
      · rename_i v stdin' hloop
        injection h with h2 h3
        subst h2; subst h3
        exact ⟨rfl, rfl, rfl, rfl, rfl, pollFieldsEq_refl _,
          by simp, fun _ => rfl⟩
      · exact HRes.noConfusion h
      · exact HRes.noConfusion h
  | false =>
    rw [hflag] at h
    simp only [Bool.not_false, eq_self_iff_true, if_true] at h
    split_ifs at h with hip
    · injection h with h2 h3
      subst h2; subst h3
      exact ⟨rfl, rfl, rfl, rfl, rfl, pollFieldsEq_refl _,
        fun _ => rfl, by simp⟩
    · split at h
      · rename_i v stdin' hloop
        injection h with h2 h3
        subst h2; subst h3
        exact ⟨rfl, rfl, rfl, rfl, rfl, pollFieldsEq_refl _,
          fun _ => rfl, by simp⟩
      · exact HRes.noConfusion h
      · exact HRes.noConfusion h

theorem askServerCert_ok {fs : FlagSet} {w : World} {rs : RunState} {next : WizState}
    {rs' : RunState} (h : askServerCert fs w rs = .ok next rs') :
    next = .polling ∧ rs'.attempts = rs.attempts ∧
    rs'.opts.hostedMender = rs.opts.hostedMender ∧
    rs'.opts.demoServer = rs.opts.demoServer ∧
    rs'.opts.serverURL = rs.opts.serverURL ∧
    PollFieldsEq rs'.opts rs.opts := by
  unfold askServerCert at h
  split_ifs at h with hflag
  · injection h with h2 h3
    subst h2; subst h3
    exact ⟨rfl, rfl, rfl, rfl, rfl, pollFieldsEq_refl _⟩
  · split at h
    · rename_i v stdin' hloop
      injection h with h2 h3
      subst h2; subst h3
      exact ⟨rfl, rfl, rfl, rfl, rfl, pollFieldsEq_refl _⟩
    · exact HRes.noConfusion h
    · exact HRes.noConfusion h

/-- The credential machinery only writes `username`, `password` and
`tenantToken`: all other invariant-relevant fields are preserved. -/
def CredFrame (a b : SetupOpts) : Prop :=
  a.hostedMender = b.hostedMender ∧ a.demoServer = b.demoServer ∧
  a.serverURL = b.serverURL ∧ a.serverCert = b.serverCert ∧
  PollFieldsEq a b

theorem credFrame_refl (a : SetupOpts) : CredFrame a a :=
  ⟨rfl, rfl, rfl, rfl, pollFieldsEq_refl a⟩

theorem credFrame_trans {a b c : SetupOpts} (h1 : CredFrame a b) (h2 : CredFrame b c) :
    CredFrame a c :=
  ⟨h1.1.trans h2.1, h1.2.1.trans h2.2.1, h1.2.2.1.trans h2.2.2.1,
   h1.2.2.2.1.trans h2.2.2.2.1, pollFieldsEq_trans h1.2.2.2.2 h2.2.2.2.2⟩

theorem askCredentials_ok {w : World} {opts : SetupOpts} {stdin : List String}
    {opts' : SetupOpts} {stdin' : List String}
    (h : askCredentials w opts stdin = .ok opts' stdin') :
    CredFrame opts' opts := by
  unfold askCredentials at h
  cases h1 : promptUser stdin with
  | ok u stdin1 =>
    rw [h1] at h
    simp only [PRes.bind] at h
    cases h2 : emailLoop w u stdin1 with
    | ok u2 stdin2 =>
      rw [h2] at h
      simp only [PRes.bind] at h
      cases h3 : promptUser stdin2 with
      | ok p stdin3 =>
        rw [h3] at h
        simp only [PRes.bind] at h
        cases h4 : passwordLoop p stdin3 with
        | ok p2 stdin4 =>
          rw [h4] at h
          simp only [PRes.bind] at h
          injection h with h5 h6
          subst h5
          exact ⟨rfl, rfl, rfl, rfl, pollFieldsEq_refl _⟩
        | ioErr => rw [h4] at h; simp [PRes.bind] at h
        | hang => rw [h4] at h; simp [PRes.bind] at h
      | ioErr => rw [h3] at h; simp [PRes.bind] at h
      | hang => rw [h3] at h; simp [PRes.bind] at h
    | ioErr => rw [h2] at h; simp [PRes.bind] at h
    | hang => rw [h2] at h; simp [PRes.bind] at h
  | ioErr => rw [h1] at h; simp [PRes.bind] at h
  | hang => rw [h1] at h; simp [PRes.bind] at h

theorem tryLoginhostedMender_ok {w : World} :
    ∀ {attempts : List LoginAttempt} {opts : SetupOpts} {stdin : List String}
      {opts' : SetupOpts} {stdin' : List String} {attempts' : List LoginAttempt},
      tryLoginhostedMender w opts stdin attempts = .ok opts' stdin' attempts' →
      CredFrame opts' opts := by
  intro attempts
  induction attempts with
  | nil =>
    intro opts stdin opts' stdin' attempts' h
    simp [tryLoginhostedMender] at h
  | cons a rest ih =>
    intro opts stdin opts' stdin' attempts' h
    cases a with
    | dnsFailure =>
      simp only [tryLoginhostedMender] at h
      split at h
      · rename_i o s hc
        exact credFrame_trans (ih h) (askCredentials_ok hc)
      · exact LoginRes.noConfusion h
    | otherFailure =>
      simp only [tryLoginhostedMender] at h
      exact LoginRes.noConfusion h
    | status code body =>
      simp only [tryLoginhostedMender] at h
      split_ifs at h with h401 h200
      · split at h
        · rename_i o s hc
          exact credFrame_trans (ih h) (askCredentials_ok hc)
        · exact LoginRes.noConfusion h
      · split at h
        · exact LoginRes.noConfusion h
        · rename_i t ht
          injection h with h5 h6 h7
          subst h5
          exact ⟨rfl, rfl, rfl, rfl, pollFieldsEq_refl _⟩

theorem askHostedMenderCredentials_ok {fs : FlagSet} {w : World} {rs : RunState}
    {next : WizState} {rs' : RunState}
    (h : askHostedMenderCredentials fs w rs = .ok next rs') :
    next = .polling ∧ CredFrame rs'.opts rs.opts := by
  unfold askHostedMenderCredentials at h
  split_ifs at h with htok hup hem
  · injection h with h2 h3
    subst h2; subst h3
    exact ⟨rfl, credFrame_refl _⟩
  · split at h
    · rename_i opts stdin' hasked
      split at h
      · rename_i o2 s2 a2 hlogin
        injection h with h2 h3
        subst h2; subst h3
        exact ⟨rfl, credFrame_trans (tryLoginhostedMender_ok hlogin) (askCredentials_ok hasked)⟩
      · exact HRes.noConfusion h
    · exact HRes.noConfusion h
    · exact HRes.noConfusion h
  · split at h
    · rename_i opts stdin' hasked
      split at h
      · rename_i o2 s2 a2 hlogin
        injection h with h2 h3
        subst h2; subst h3
        exact ⟨rfl, credFrame_trans (tryLoginhostedMender_ok hlogin) (askCredentials_ok hasked)⟩
      · exact HRes.noConfusion h
    · exact HRes.noConfusion h
    · exact HRes.noConfusion h
  · split at h
    · rename_i opts stdin' hasked
      injection hasked with ho hs
      subst ho; subst hs
      split at h
      · rename_i o2 s2 a2 hlogin
        injection h with h2 h3
        subst h2; subst h3
        exact ⟨rfl, tryLoginhostedMender_ok hlogin⟩
      · exact HRes.noConfusion h
    · exact HRes.noConfusion h
    · exact HRes.noConfusion h

theorem askUpdatePoll_ok {fs : FlagSet} {opts : SetupOpts} {stdin : List String}
    {opts' : SetupOpts} {stdin' : List String}
    (h : askUpdatePoll fs opts stdin = .ok opts' stdin') :
    opts' = { opts with updatePollInterval := opts'.updatePollInterval } ∧
    (fs.updatePoll = true → ¬(opts.updatePollInterval < minimumPollInterval) →
      opts' = opts) := by
  unfold askUpdatePoll at h
  split_ifs at h with hcond
  · cases h1 : promptUser stdin with
    | ok rsp stdin1 =>
      rw [h1] at h
      simp only [PRes.bind] at h
      cases h2 : pollLoop defaultUpdatePoll rsp stdin1 with
      | ok v stdin2 =>
        rw [h2] at h
        simp only [PRes.bind] at h
        injection h with h3 h4
        subst h3
        refine ⟨by simp, ?_⟩
        intro hset hge
        simp [hset, hge] at hcond
      | ioErr => rw [h2] at h; simp [PRes.bind] at h
      | hang => rw [h2] at h; simp [PRes.bind] at h
    | ioErr => rw [h1] at h; simp [PRes.bind] at h
    | hang => rw [h1] at h; simp [PRes.bind] at h
  · injection h with h3 h4
    subst h3
    exact ⟨by simp, fun _ _ => rfl⟩

theorem askInventoryPoll_ok {fs : FlagSet} {opts : SetupOpts} {stdin : List String}
    {opts' : SetupOpts} {stdin' : List String}
    (h : askInventoryPoll fs opts stdin = .ok opts' stdin') :
    opts' = { opts with invPollInterval := opts'.invPollInterval } ∧
    (fs.inventoryPoll = true → ¬(opts.invPollInterval < minimumPollInterval) →
      opts' = opts) := by
  unfold askInventoryPoll at h
  split_ifs at h with hcond
  · cases h1 : promptUser stdin with
    | ok rsp stdin1 =>
      rw [h1] at h
      simp only [PRes.bind] at h
      cases h2 : pollLoop defaultInventoryPoll rsp stdin1 with
      | ok v stdin2 =>
        rw [h2] at h
        simp only [PRes.bind] at h
        injection h with h3 h4
        subst h3
        refine ⟨by simp, ?_⟩
        intro hset hge
        simp [hset, hge] at hcond
      | ioErr => rw [h2] at h; simp [PRes.bind] at h
      | hang => rw [h2] at h; simp [PRes.bind] at h
    | ioErr => rw [h1] at h; simp [PRes.bind] at h
    | hang => rw [h1] at h; simp [PRes.bind] at h
  · injection h with h3 h4
    subst h3
    exact ⟨by simp, fun _ _ => rfl⟩

theorem askRetryPoll_ok {fs : FlagSet} {opts : SetupOpts} {stdin : List String}
    {opts' : SetupOpts} {stdin' : List String}
    (h : askRetryPoll fs opts stdin = .ok opts' stdin') :
    opts' = { opts with retryPollInterval := opts'.retryPollInterval } ∧
    (fs.retryPoll = true → ¬(opts.retryPollInterval < minimumPollInterval) →
      opts' = opts) := by
  unfold askRetryPoll at h
  split_ifs at h with hcond
  · cases h1 : promptUser stdin with
    | ok rsp stdin1 =>
      rw [h1] at h
      simp only [PRes.bind] at h
      cases h2 : pollLoop defaultRetryPoll rsp stdin1 with
      | ok v stdin2 =>
        rw [h2] at h
        simp only [PRes.bind] at h
        injection h with h3 h4
        subst h3
        refine ⟨by simp, ?_⟩
        intro hset hge
        simp [hset, hge] at hcond
      | ioErr => rw [h2] at h; simp [PRes.bind] at h
      | hang => rw [h2] at h; simp [PRes.bind] at h
    | ioErr => rw [h1] at h; simp [PRes.bind] at h
    | hang => rw [h1] at h; simp [PRes.bind] at h
  · injection h with h3 h4
    subst h3
    exact ⟨by simp, fun _ _ => rfl⟩

theorem askPollingIntervals_ok {fs : FlagSet} {rs : RunState} {next : WizState}
    {rs' : RunState} (h : askPollingIntervals fs rs = .ok next rs') :
    next = .done ∧ rs'.attempts = rs.attempts ∧
    rs'.opts.hostedMender = rs.opts.hostedMender ∧
    rs'.opts.demoServer = rs.opts.demoServer ∧
    rs'.opts.serverURL = rs.opts.serverURL ∧
    rs'.opts.serverCert = rs.opts.serverCert ∧
    (rs'.opts.demoIntervals = true →
      rs'.opts.updatePollInterval = demoUpdatePoll ∧
      rs'.opts.invPollInterval = demoInventoryPoll ∧
      rs'.opts.retryPollInterval = demoRetryPoll) ∧
    (fs.demoPolling = true → rs'.opts.demoIntervals = rs.opts.demoIntervals) ∧
    (rs'.opts.demoIntervals = false → fs.updatePoll = true →
      ¬(rs.opts.updatePollInterval < minimumPollInterval) →
      rs'.opts.updatePollInterval = rs.opts.updatePollInterval) ∧
    (rs'.opts.demoIntervals = false → fs.inventoryPoll = true →
      ¬(rs.opts.invPollInterval < minimumPollInterval) →
      rs'.opts.invPollInterval = rs.opts.invPollInterval) ∧
    (rs'.opts.demoIntervals = false → fs.retryPoll = true →
      ¬(rs.opts.retryPollInterval < minimumPollInterval) →
      rs'.opts.retryPollInterval = rs.opts.retryPollInterval) := by
  unfold askPollingIntervals at h
  split at h
  · rename_i opts stdin' hans
    have hframe : opts = { rs.opts with demoIntervals := opts.demoIntervals } := by
      split_ifs at hans with hflag
      · cases hyn : promptYN true rs.stdin with
        | ok b rest =>
          rw [hyn] at hans
          simp only [PRes.bind] at hans
          injection hans with h4 h5
          subst h4; simp
        | ioErr => rw [hyn] at hans; simp [PRes.bind] at hans
        | hang => rw [hyn] at hans; simp [PRes.bind] at hans
      · injection hans with h4 h5
        subst h4; simp
    have hnoprompt : fs.demoPolling = true → opts = rs.opts := by
      intro hdp
      split_ifs at hans with hflag
      · rw [hdp] at hflag; simp at hflag
      · injection hans with h4 h5
        exact h4.symm
    split_ifs at h with hdemo
    · injection h with h2 h3
      subst h2; subst h3
      refine ⟨rfl, rfl, by rw [hframe], by rw [hframe], by rw [hframe], by rw [hframe],
        fun _ => ⟨rfl, rfl, rfl⟩, ?_, ?_, ?_, ?_⟩
      · intro hdp
        rw [hnoprompt hdp]
      · intro hfalse
        simp only at hfalse
        rw [hdemo] at hfalse
        exact absurd hfalse (by simp)
      · intro hfalse
        simp only at hfalse
        rw [hdemo] at hfalse
        exact absurd hfalse (by simp)
      · intro hfalse
        simp only at hfalse
        rw [hdemo] at hfalse
        exact absurd hfalse (by simp)
    · split at h
      · rename_i opts2 stdin2 hchain
        injection h with h2 h3
        subst h2; subst h3
        -- decompose the three poll questions
        cases h1 : askUpdatePoll fs opts stdin' with
        | ok o1 s1 =>
          rw [h1] at hchain
          simp only [PRes.bind] at hchain
          cases h2 : askInventoryPoll fs o1 s1 with
          | ok o2 s2 =>
            rw [h2] at hchain
            simp only [PRes.bind] at hchain
            obtain ⟨e1, a1⟩ := askUpdatePoll_ok h1
            obtain ⟨e2, a2⟩ := askInventoryPoll_ok h2
            obtain ⟨e3, a3⟩ := askRetryPoll_ok hchain
            have hdi : opts2.demoIntervals = opts.demoIntervals := by
              rw [e3, e2, e1]
            refine ⟨rfl, rfl,
              by simp only; rw [e3, e2, e1, hframe],
              by simp only; rw [e3, e2, e1, hframe],
              by simp only; rw [e3, e2, e1, hframe],
              by simp only; rw [e3, e2, e1, hframe],
              ?_, ?_, ?_, ?_, ?_⟩
            · intro htrue
              simp only at htrue
              rw [hdi] at htrue
              exact absurd htrue hdemo
            · intro hdp
              simp only
              rw [hdi, hnoprompt hdp]
            · intro _ hset hge
              have hx : ¬(opts.updatePollInterval < minimumPollInterval) := by
                rw [hframe]; exact hge
              have ho1 : o1 = opts := a1 hset hx
              simp only
              rw [e3, e2, ho1, hframe]
            · intro _ hset hge
              have hx : ¬(o1.invPollInterval < minimumPollInterval) := by
                rw [e1, hframe]; exact hge
              have ho2 : o2 = o1 := a2 hset hx
              simp only
              rw [e3, ho2, e1, hframe]
            · intro _ hset hge
              have hx : ¬(o2.retryPollInterval < minimumPollInterval) := by
                rw [e2, e1, hframe]; exact hge
              have ho3 : opts2 = o2 := a3 hset hx
              simp only
              rw [ho3, e2, e1, hframe]
          | ioErr => rw [h2] at hchain; simp [PRes.bind] at hchain
          | hang => rw [h2] at hchain; simp [PRes.bind] at hchain
        | ioErr => rw [h1] at hchain; simp [PRes.bind] at hchain
        | hang => rw [h1] at hchain; simp [PRes.bind] at hchain
      · exact HRes.noConfusion h
      · exact HRes.noConfusion h
  · exact HRes.noConfusion h
  · exact HRes.noConfusion h

/-! ## Lower bound of the prompted poll intervals -/

theorem pollLoop_ok_min {dflt : Int} (hd : ¬(dflt < minimumPollInterval)) :
    ∀ (stdin : List String) (rsp : String) (v : Int) (stdin' : List String),
      pollLoop dflt rsp stdin = .ok v stdin' → ¬(v < minimumPollInterval) := by
  intro stdin
  induction stdin with
  | nil =>
    intro rsp v stdin' h
    simp only [pollLoop] at h
    split_ifs at h with h1
    · injection h with h2 h3
      subst h2
      exact hd
    · split at h
      · exact PRes.noConfusion h
      · rename_i v1 hatoi
        split_ifs at h with h2
        · injection h with h3 h4
          subst h3
          exact h2
  | cons s rest ih =>
    intro rsp v stdin' h
    simp only [pollLoop] at h
    split_ifs at h with h1
    · injection h with h2 h3
      subst h2
      exact hd
    · split at h
      · exact ih s v stdin' h
      · rename_i v1 hatoi
        split_ifs at h with h2
        · exact ih s v stdin' h
        · injection h with h3 h4
          subst h3
          exact h2

theorem askUpdatePoll_min {fs : FlagSet} {opts : SetupOpts} {stdin : List String}
    {opts' : SetupOpts} {stdin' : List String}
    (h : askUpdatePoll fs opts stdin = .ok opts' stdin') :
    ¬(opts'.updatePollInterval < minimumPollInterval) := by
  unfold askUpdatePoll at h
  split_ifs at h with hcond
  · cases h1 : promptUser stdin with
    | ok rsp stdin1 =>
      rw [h1] at h
      simp only [PRes.bind] at h
      cases h2 : pollLoop defaultUpdatePoll rsp stdin1 with
      | ok v stdin2 =>
        rw [h2] at h
        simp only [PRes.bind] at h
        injection h with h3 h4
        subst h3
        exact pollLoop_ok_min (by decide) stdin1 rsp v stdin2 h2
      | ioErr => rw [h2] at h; simp [PRes.bind] at h
      | hang => rw [h2] at h; simp [PRes.bind] at h
    | ioErr => rw [h1] at h; simp [PRes.bind] at h
    | hang => rw [h1] at h; simp [PRes.bind] at h
  · injection h with h3 h4
    subst h3
    intro hlt
    exact hcond (by simp [hlt])

theorem askInventoryPoll_min {fs : FlagSet} {opts : SetupOpts} {stdin : List String}
    {opts' : SetupOpts} {stdin' : List String}
    (h : askInventoryPoll fs opts stdin = .ok opts' stdin') :
    ¬(opts'.invPollInterval < minimumPollInterval) := by
  unfold askInventoryPoll at h
  split_ifs at h with hcond
  · cases h1 : promptUser stdin with
    | ok rsp stdin1 =>
      rw [h1] at h
      simp only [PRes.bind] at h
      cases h2 : pollLoop defaultInventoryPoll rsp stdin1 with
      | ok v stdin2 =>
        rw [h2] at h
        simp only [PRes.bind] at h
        injection h with h3 h4
        subst h3
        exact pollLoop_ok_min (by decide) stdin1 rsp v stdin2 h2
      | ioErr => rw [h2] at h; simp [PRes.bind] at h
      | hang => rw [h2] at h; simp [PRes.bind] at h
    | ioErr => rw [h1] at h; simp [PRes.bind] at h
    | hang => rw [h1] at h; simp [PRes.bind] at h
  · injection h with h3 h4
    subst h3
    intro hlt
    exact hcond (by simp [hlt])

theorem askRetryPoll_min {fs : FlagSet} {opts : SetupOpts} {stdin : List String}
    {opts' : SetupOpts} {stdin' : List String}
    (h : askRetryPoll fs opts stdin = .ok opts' stdin') :
    ¬(opts'.retryPollInterval < minimumPollInterval) := by
  unfold askRetryPoll at h
  split_ifs at h with hcond
  · cases h1 : promptUser stdin with
    | ok rsp stdin1 =>
      rw [h1] at h
      simp only [PRes.bind] at h
      cases h2 : pollLoop defaultRetryPoll rsp stdin1 with
      | ok v stdin2 =>
        rw [h2] at h
        simp only [PRes.bind] at h
        injection h with h3 h4
        subst h3
        exact pollLoop_ok_min (by decide) stdin1 rsp v stdin2 h2
      | ioErr => rw [h2] at h; simp [PRes.bind] at h
      | hang => rw [h2] at h; simp [PRes.bind] at h
    | ioErr => rw [h1] at h; simp [PRes.bind] at h
    | hang => rw [h1] at h; simp [PRes.bind] at h
  · injection h with h3 h4
    subst h3
    intro hlt
    exact hcond (by simp [hlt])

/-- When POLLING completes with demo intervals off, every interval it leaves
behind meets the minimum: a kept flag value passed the guard of its question,
and a prompted value passed the validation loop (whose defaults all exceed
the minimum). -/
theorem askPollingIntervals_min {fs : FlagSet} {rs : RunState} {next : WizState}
    {rs' : RunState} (h : askPollingIntervals fs rs = .ok next rs')
    (hdi : rs'.opts.demoIntervals = false) :
    ¬(rs'.opts.updatePollInterval < minimumPollInterval) ∧
    ¬(rs'.opts.invPollInterval < minimumPollInterval) ∧
    ¬(rs'.opts.retryPollInterval < minimumPollInterval) := by
  unfold askPollingIntervals at h
  split at h
  · rename_i opts stdin' hans
    split_ifs at h with hdemo
    · injection h with h2 h3
      subst h3
      simp only at hdi
      rw [hdemo] at hdi
      exact absurd hdi (by simp)
    · split at h
      · rename_i opts2 stdin2 hchain
        injection h with h2 h3
        subst h3
        cases h1 : askUpdatePoll fs opts stdin' with
        | ok o1 s1 =>
          rw [h1] at hchain
          simp only [PRes.bind] at hchain
          cases h2 : askInventoryPoll fs o1 s1 with
          | ok o2 s2 =>
            rw [h2] at hchain
            simp only [PRes.bind] at hchain
            obtain ⟨e2, _⟩ := askInventoryPoll_ok h2
            obtain ⟨e3, _⟩ := askRetryPoll_ok hchain
            have hu := askUpdatePoll_min h1
            have hi := askInventoryPoll_min h2
            have hr := askRetryPoll_min hchain
            refine ⟨?_, ?_, ?_⟩
            · simp only
              rw [e3, e2]
              exact hu
            · simp only
              rw [e3]
              exact hi
            · simp only
              exact hr
          | ioErr => rw [h2] at hchain; simp [PRes.bind] at hchain
          | hang => rw [h2] at hchain; simp [PRes.bind] at hchain
        | ioErr => rw [h1] at hchain; simp [PRes.bind] at hchain
        | hang => rw [h1] at hchain; simp [PRes.bind] at hchain
      · exact HRes.noConfusion h
      · exact HRes.noConfusion h
  · exact HRes.noConfusion h
  · exact HRes.noConfusion h

/-! ## The run invariant -/

/-- Invariant maintained along every wizard run started at `stateDeviceType`
with initial option model `opts0` under flag bits `fs`. -/
structure WizInv (fs : FlagSet) (opts0 : SetupOpts) (st : WizState) (rs : RunState) : Prop where
  /-- the self-hosted branch states are only reached with hosted mode off -/
  notHosted : (st = .demoServer ∨ st = .serverURL ∨ st = .serverIP ∨ st = .serverCert) →
    rs.opts.hostedMender = false
  /-- the credentials state is only reached with hosted mode on -/
  hostedCred : st = .credentials → rs.opts.hostedMender = true
  /-- once past HOSTED_MENDER with hosted mode on, the server URL is the fixed
  hosted endpoint and the certificate option was never touched -/
  hostedPersist : (st = .credentials ∨ st = .polling ∨ st = .done) →
    rs.opts.hostedMender = true →
    rs.opts.serverURL = hostedMenderURL ∧ rs.opts.serverCert = opts0.serverCert
  /-- before HOSTED_MENDER completes, the certificate option is untouched -/
  certEarly : (st = .deviceType ∨ st = .hostedMender) → rs.opts.serverCert = opts0.serverCert
  /-- the SERVER_URL / SERVER_CERT states are only reached with demo server off -/
  notDemoURL : (st = .serverURL ∨ st = .serverCert) → rs.opts.demoServer = false
  /-- at completion with demo intervals on, the intervals are the demo values -/
  demoDone : st = .done → rs.opts.demoIntervals = true →
    rs.opts.updatePollInterval = demoUpdatePoll ∧
    rs.opts.invPollInterval = demoInventoryPoll ∧
    rs.opts.retryPollInterval = demoRetryPoll
  /-- past SERVER_IP in a demo-server run without a server-url flag, the
  server URL is the compiled-in default -/
  demoURLP : (st = .polling ∨ st = .done) → rs.opts.demoServer = true →
    rs.opts.hostedMender = false → fs.serverURL = false →
    rs.opts.serverURL = defaultServerURL
  /-- the polling fields are untouched before the POLLING state runs -/
  pollsBefore : st ≠ .done → PollFieldsEq rs.opts opts0
  /-- with the demo-polling flag set, POLLING never prompts for it -/
  demoPollingDone : st = .done → fs.demoPolling = true →
    rs.opts.demoIntervals = opts0.demoIntervals
  /-- an explicitly set, above-minimum update-poll flag value is kept -/
  updateAdopt : st = .done → rs.opts.demoIntervals = false → fs.updatePoll = true →
    ¬(opts0.updatePollInterval < minimumPollInterval) →
    rs.opts.updatePollInterval = opts0.updatePollInterval
  /-- an explicitly set, above-minimum inventory-poll flag value is kept -/
  invAdopt : st = .done → rs.opts.demoIntervals = false → fs.inventoryPoll = true →
    ¬(opts0.invPollInterval < minimumPollInterval) →
    rs.opts.invPollInterval = opts0.invPollInterval
  /-- an explicitly set, above-minimum retry-poll flag value is kept -/
  retryAdopt : st = .done → rs.opts.demoIntervals = false → fs.retryPoll = true →
    ¬(opts0.retryPollInterval < minimumPollInterval) →
    rs.opts.retryPollInterval = opts0.retryPollInterval
  /-- at completion with demo intervals off, every interval meets the minimum -/
  pollMinDone : st = .done → rs.opts.demoIntervals = false →
    ¬(rs.opts.updatePollInterval < minimumPollInterval) ∧
    ¬(rs.opts.invPollInterval < minimumPollInterval) ∧
    ¬(rs.opts.retryPollInterval < minimumPollInterval)

theorem wizInv_init (fs : FlagSet) (opts0 : SetupOpts) (stdin : List String)
    (attempts : List LoginAttempt) :
    WizInv fs opts0 .deviceType ⟨opts0, stdin, attempts⟩ where
  notHosted hor := by rcases hor with h1|h1|h1|h1 <;> exact WizState.noConfusion h1
  hostedCred h1 := WizState.noConfusion h1
  hostedPersist hor := by rcases hor with h1|h1|h1 <;> exact WizState.noConfusion h1
  certEarly _ := rfl
  notDemoURL hor := by rcases hor with h1|h1 <;> exact WizState.noConfusion h1
  demoDone h1 := WizState.noConfusion h1
  demoURLP hor := by rcases hor with h1|h1 <;> exact WizState.noConfusion h1
  pollsBefore _ := pollFieldsEq_refl _
  demoPollingDone h1 := WizState.noConfusion h1
  updateAdopt h1 := WizState.noConfusion h1
  invAdopt h1 := WizState.noConfusion h1
  retryAdopt h1 := WizState.noConfusion h1
  pollMinDone h1 := WizState.noConfusion h1

theorem stepState_inv {fs : FlagSet} {w : World} {opts0 : SetupOpts} {st : WizState}
    {rs : RunState} {next : WizState} {rs' : RunState}
    (hInv : WizInv fs opts0 st rs) (h : stepState fs w st rs = .ok next rs') :
    WizInv fs opts0 next rs' := by
  cases st with
  | deviceType =>
    simp only [stepState] at h
    obtain ⟨hn, hatt, hhm, hds, hsu, hsc, hpoll, hvd⟩ := askDeviceType_ok h
    subst hn
    exact
      { notHosted := fun hor => by rcases hor with h1|h1|h1|h1 <;> exact WizState.noConfusion h1
        hostedCred := fun h1 => WizState.noConfusion h1
        hostedPersist := fun hor => by rcases hor with h1|h1|h1 <;> exact WizState.noConfusion h1
        certEarly := fun _ => hsc.trans (hInv.certEarly (Or.inl rfl))
        notDemoURL := fun hor => by rcases hor with h1|h1 <;> exact WizState.noConfusion h1
        demoDone := fun h1 => WizState.noConfusion h1
        demoURLP := fun hor => by rcases hor with h1|h1 <;> exact WizState.noConfusion h1
        pollsBefore := fun _ =>
          pollFieldsEq_trans hpoll (hInv.pollsBefore (fun h1 => WizState.noConfusion h1))
        demoPollingDone := fun h1 => WizState.noConfusion h1
        updateAdopt := fun h1 => WizState.noConfusion h1
        invAdopt := fun h1 => WizState.noConfusion h1
        retryAdopt := fun h1 => WizState.noConfusion h1
        pollMinDone := fun h1 => WizState.noConfusion h1 }
  | hostedMender =>
    simp only [stepState] at h
    obtain ⟨hatt, hds, hsc, hpoll, hor⟩ := askHostedMender_ok h
    rcases hor with ⟨hn, hhm, hurl⟩ | ⟨hn, hhm, hurl⟩ <;> subst hn
    · exact
        { notHosted := fun hor => by rcases hor with h1|h1|h1|h1 <;> exact WizState.noConfusion h1
          hostedCred := fun _ => hhm
          hostedPersist := fun _ _ => ⟨hurl, hsc.trans (hInv.certEarly (Or.inr rfl))⟩
          certEarly := fun hor => by rcases hor with h1|h1 <;> exact WizState.noConfusion h1
          notDemoURL := fun hor => by rcases hor with h1|h1 <;> exact WizState.noConfusion h1
          demoDone := fun h1 => WizState.noConfusion h1
          demoURLP := fun hor => by rcases hor with h1|h1 <;> exact WizState.noConfusion h1
          pollsBefore := fun _ =>
            pollFieldsEq_trans hpoll (hInv.pollsBefore (fun h1 => WizState.noConfusion h1))
          demoPollingDone := fun h1 => WizState.noConfusion h1
          updateAdopt := fun h1 => WizState.noConfusion h1
          invAdopt := fun h1 => WizState.noConfusion h1
          retryAdopt := fun h1 => WizState.noConfusion h1
          pollMinDone := fun h1 => WizState.noConfusion h1 }
    · exact
        { notHosted := fun _ => hhm
          hostedCred := fun h1 => WizState.noConfusion h1
          hostedPersist := fun hor => by rcases hor with h1|h1|h1 <;> exact WizState.noConfusion h1
          certEarly := fun hor => by rcases hor with h1|h1 <;> exact WizState.noConfusion h1
          notDemoURL := fun hor => by rcases hor with h1|h1 <;> exact WizState.noConfusion h1
          demoDone := fun h1 => WizState.noConfusion h1
          demoURLP := fun hor => by rcases hor with h1|h1 <;> exact WizState.noConfusion h1
          pollsBefore := fun _ =>
            pollFieldsEq_trans hpoll (hInv.pollsBefore (fun h1 => WizState.noConfusion h1))
          demoPollingDone := fun h1 => WizState.noConfusion h1
          updateAdopt := fun h1 => WizState.noConfusion h1
          invAdopt := fun h1 => WizState.noConfusion h1
          retryAdopt := fun h1 => WizState.noConfusion h1
          pollMinDone := fun h1 => WizState.noConfusion h1 }
  | demoServer =>
    simp only [stepState] at h
    obtain ⟨hatt, hhm, hsu, hsc, hpoll, himp⟩ := askDemoServer_ok h
    have hhosted : rs.opts.hostedMender = false := hInv.notHosted (Or.inl rfl)
    rcases himp hhosted with ⟨hn, hds⟩ | ⟨hn, hds⟩ <;> subst hn
    · exact
        { notHosted := fun _ => hhm.trans hhosted
          hostedCred := fun h1 => WizState.noConfusion h1
          hostedPersist := fun hor => by rcases hor with h1|h1|h1 <;> exact WizState.noConfusion h1
          certEarly := fun hor => by rcases hor with h1|h1 <;> exact WizState.noConfusion h1
          notDemoURL := fun hor => by rcases hor with h1|h1 <;> exact WizState.noConfusion h1
          demoDone := fun h1 => WizState.noConfusion h1
          demoURLP := fun hor => by rcases hor with h1|h1 <;> exact WizState.noConfusion h1
          pollsBefore := fun _ =>
            pollFieldsEq_trans hpoll (hInv.pollsBefore (fun h1 => WizState.noConfusion h1))
          demoPollingDone := fun h1 => WizState.noConfusion h1
          updateAdopt := fun h1 => WizState.noConfusion h1
          invAdopt := fun h1 => WizState.noConfusion h1
          retryAdopt := fun h1 => WizState.noConfusion h1
          pollMinDone := fun h1 => WizState.noConfusion h1 }
    · exact
        { notHosted := fun _ => hhm.trans hhosted
          hostedCred := fun h1 => WizState.noConfusion h1
          hostedPersist := fun hor => by rcases hor with h1|h1|h1 <;> exact WizState.noConfusion h1
          certEarly := fun hor => by rcases hor with h1|h1 <;> exact WizState.noConfusion h1
          notDemoURL := fun _ => hds
          demoDone := fun h1 => WizState.noConfusion h1
          demoURLP := fun hor => by rcases hor with h1|h1 <;> exact WizState.noConfusion h1
          pollsBefore := fun _ =>
            pollFieldsEq_trans hpoll (hInv.pollsBefore (fun h1 => WizState.noConfusion h1))
          demoPollingDone := fun h1 => WizState.noConfusion h1
          updateAdopt := fun h1 => WizState.noConfusion h1
          invAdopt := fun h1 => WizState.noConfusion h1
          retryAdopt := fun h1 => WizState.noConfusion h1
          pollMinDone := fun h1 => WizState.noConfusion h1 }
  | serverURL =>
    simp only [stepState] at h
    obtain ⟨hn, hatt, hhm, hds, hsc, hpoll⟩ := askServerURL_ok h
    subst hn
    exact
      { notHosted := fun _ => hhm.trans (hInv.notHosted (Or.inr (Or.inl rfl)))
        hostedCred := fun h1 => WizState.noConfusion h1
        hostedPersist := fun hor => by rcases hor with h1|h1|h1 <;> exact WizState.noConfusion h1
        certEarly := fun hor => by rcases hor with h1|h1 <;> exact WizState.noConfusion h1
        notDemoURL := fun _ => hds.trans (hInv.notDemoURL (Or.inl rfl))
        demoDone := fun h1 => WizState.noConfusion h1
        demoURLP := fun hor => by rcases hor with h1|h1 <;> exact WizState.noConfusion h1
        pollsBefore := fun _ =>
          pollFieldsEq_trans hpoll (hInv.pollsBefore (fun h1 => WizState.noConfusion h1))
        demoPollingDone := fun h1 => WizState.noConfusion h1
        updateAdopt := fun h1 => WizState.noConfusion h1
        invAdopt := fun h1 => WizState.noConfusion h1
        retryAdopt := fun h1 => WizState.noConfusion h1
        pollMinDone := fun h1 => WizState.noConfusion h1 }
  | serverIP =>
    simp only [stepState] at h
    obtain ⟨hn, hatt, hhm, hds, hsc, hpoll, hurlF, hurlT⟩ := askServerIP_ok h
    subst hn
    have hhosted : rs.opts.hostedMender = false :=
      hInv.notHosted (Or.inr (Or.inr (Or.inl rfl)))
    exact
      { notHosted := fun hor => by rcases hor with h1|h1|h1|h1 <;> exact WizState.noConfusion h1
        hostedCred := fun h1 => WizState.noConfusion h1
        hostedPersist := fun _ htrue => by
          rw [hhm, hhosted] at htrue
          exact absurd htrue (by simp)
        certEarly := fun hor => by rcases hor with h1|h1 <;> exact WizState.noConfusion h1
        notDemoURL := fun hor => by rcases hor with h1|h1 <;> exact WizState.noConfusion h1
        demoDone := fun h1 => WizState.noConfusion h1
        demoURLP := fun _ _ _ hfs => hurlF hfs
        pollsBefore := fun _ =>
          pollFieldsEq_trans hpoll (hInv.pollsBefore (fun h1 => WizState.noConfusion h1))
        demoPollingDone := fun h1 => WizState.noConfusion h1
        updateAdopt := fun h1 => WizState.noConfusion h1
        invAdopt := fun h1 => WizState.noConfusion h1
        retryAdopt := fun h1 => WizState.noConfusion h1
        pollMinDone := fun h1 => WizState.noConfusion h1 }
  | serverCert =>
    simp only [stepState] at h
    obtain ⟨hn, hatt, hhm, hds, hsu, hpoll⟩ := askServerCert_ok h
    subst hn
    have hhosted : rs.opts.hostedMender = false :=
      hInv.notHosted (Or.inr (Or.inr (Or.inr rfl)))
    have hnd : rs.opts.demoServer = false := hInv.notDemoURL (Or.inr rfl)
    exact
      { notHosted := fun hor => by rcases hor with h1|h1|h1|h1 <;> exact WizState.noConfusion h1
        hostedCred := fun h1 => WizState.noConfusion h1
        hostedPersist := fun _ htrue => by
          rw [hhm, hhosted] at htrue
          exact absurd htrue (by simp)
        certEarly := fun hor => by rcases hor with h1|h1 <;> exact WizState.noConfusion h1
        notDemoURL := fun hor => by rcases hor with h1|h1 <;> exact WizState.noConfusion h1
        demoDone := fun h1 => WizState.noConfusion h1
        demoURLP := fun _ hds' => by
          rw [hds, hnd] at hds'
          exact absurd hds' (by simp)
        pollsBefore := fun _ =>
          pollFieldsEq_trans hpoll (hInv.pollsBefore (fun h1 => WizState.noConfusion h1))
        demoPollingDone := fun h1 => WizState.noConfusion h1
        updateAdopt := fun h1 => WizState.noConfusion h1
        invAdopt := fun h1 => WizState.noConfusion h1
        retryAdopt := fun h1 => WizState.noConfusion h1
        pollMinDone := fun h1 => WizState.noConfusion h1 }
  | credentials =>
    simp only [stepState] at h
    obtain ⟨hn, hcf⟩ := askHostedMenderCredentials_ok h
    subst hn
    obtain ⟨hhm, hds, hsu, hsc, hpoll⟩ := hcf
    have hcr : rs.opts.hostedMender = true := hInv.hostedCred rfl
    exact
      { notHosted := fun hor => by rcases hor with h1|h1|h1|h1 <;> exact WizState.noConfusion h1
        hostedCred := fun h1 => WizState.noConfusion h1
        hostedPersist := fun _ _ =>
          ⟨hsu.trans (hInv.hostedPersist (Or.inl rfl) hcr).1,
           hsc.trans (hInv.hostedPersist (Or.inl rfl) hcr).2⟩
        certEarly := fun hor => by rcases hor with h1|h1 <;> exact WizState.noConfusion h1
        notDemoURL := fun hor => by rcases hor with h1|h1 <;> exact WizState.noConfusion h1
        demoDone := fun h1 => WizState.noConfusion h1
        demoURLP := fun _ _ hfalse => by
          rw [hhm, hcr] at hfalse
          exact absurd hfalse (by simp)
        pollsBefore := fun _ =>
          pollFieldsEq_trans hpoll (hInv.pollsBefore (fun h1 => WizState.noConfusion h1))
        demoPollingDone := fun h1 => WizState.noConfusion h1
        updateAdopt := fun h1 => WizState.noConfusion h1
        invAdopt := fun h1 => WizState.noConfusion h1
        retryAdopt := fun h1 => WizState.noConfusion h1
        pollMinDone := fun h1 => WizState.noConfusion h1 }
  | polling =>
    simp only [stepState] at h
    obtain ⟨hn, hatt, hhm, hds, hsu, hsc, hdemo, hdp, haU, haI, haR⟩ :=
      askPollingIntervals_ok h
    subst hn
    have hpoll0 : PollFieldsEq rs.opts opts0 :=
      hInv.pollsBefore (fun h1 => WizState.noConfusion h1)
    exact
      { notHosted := fun hor => by rcases hor with h1|h1|h1|h1 <;> exact WizState.noConfusion h1
        hostedCred := fun h1 => WizState.noConfusion h1
        hostedPersist := fun _ htrue =>
          ⟨hsu.trans (hInv.hostedPersist (Or.inr (Or.inl rfl)) (hhm.symm.trans htrue)).1,
           hsc.trans (hInv.hostedPersist (Or.inr (Or.inl rfl)) (hhm.symm.trans htrue)).2⟩
        certEarly := fun hor => by rcases hor with h1|h1 <;> exact WizState.noConfusion h1
        notDemoURL := fun hor => by rcases hor with h1|h1 <;> exact WizState.noConfusion h1
        demoDone := fun _ hdi => hdemo hdi
        demoURLP := fun _ hds' hhm' hfs =>
          hsu.trans (hInv.demoURLP (Or.inl rfl) (hds.symm.trans hds')
            (hhm.symm.trans hhm') hfs)
        pollsBefore := fun hne => absurd rfl hne
        demoPollingDone := fun _ hflag => (hdp hflag).trans hpoll0.2.2.2
        updateAdopt := fun _ hdi0 hset hge0 =>
          (haU hdi0 hset (by rw [hpoll0.1]; exact hge0)).trans hpoll0.1
        invAdopt := fun _ hdi0 hset hge0 =>
          (haI hdi0 hset (by rw [hpoll0.2.1]; exact hge0)).trans hpoll0.2.1
        retryAdopt := fun _ hdi0 hset hge0 =>
          (haR hdi0 hset (by rw [hpoll0.2.2.1]; exact hge0)).trans hpoll0.2.2.1
        pollMinDone := fun _ hdi0 => askPollingIntervals_min h hdi0 }
  | done =>
    simp only [stepState] at h
    injection h with h1 h2
    subst h1; subst h2
    exact hInv

theorem runWizard_inv {fs : FlagSet} {w : World} {opts0 : SetupOpts} :
    ∀ (fuel : Nat) (st : WizState) (rs : RunState) (rs' : RunState),
      WizInv fs opts0 st rs → runWizard fs w fuel st rs = .ok rs' →
      WizInv fs opts0 .done rs' := by
  intro fuel
  induction fuel with
  | zero =>
    intro st rs rs' _ h
    simp [runWizard] at h
  | succ n ih =>
    intro st rs rs' hInv h
    simp only [runWizard] at h
    split_ifs at h with hdone
    · injection h with h2
      subst h2
      exact hdone ▸ hInv
    · split at h
      · rename_i next rs2 hstep
        exact ih next rs2 rs' (stepState_inv hInv hstep) h
      · exact RunRes.noConfusion h
      · exact RunRes.noConfusion h

/-! ## Properties of `handleImplicitFlags` -/

set_option maxHeartbeats 2000000 in
theorem handleImplicitFlags_fields (fs : FlagSet) (opts : SetupOpts) :
    (handleImplicitFlags fs opts).fs.serverURL = fs.serverURL ∧
    (handleImplicitFlags fs opts).fs.updatePoll = fs.updatePoll ∧
    (handleImplicitFlags fs opts).fs.inventoryPoll = fs.inventoryPoll ∧
    (handleImplicitFlags fs opts).fs.retryPoll = fs.retryPoll ∧
    (handleImplicitFlags fs opts).opts.serverCert = opts.serverCert ∧
    (handleImplicitFlags fs opts).opts.updatePollInterval = opts.updatePollInterval ∧
    (handleImplicitFlags fs opts).opts.invPollInterval = opts.invPollInterval ∧
    (handleImplicitFlags fs opts).opts.retryPollInterval = opts.retryPollInterval := by
  obtain ⟨c, d, dt, un, pw, su, sip, sc, tt, ipoll, rpoll, upoll, hm, dm, ds, dp, q⟩ := fs
  cases dm <;> cases upoll <;> cases ipoll <;> cases rpoll <;> cases su <;> cases sip <;>
    by_cases hsu : opts.serverURL = defaultServerURL <;>
    simp [handleImplicitFlags, hsu]

set_option maxHeartbeats 2000000 in
theorem handleImplicitFlags_pollFlagDisablesDemo (fs : FlagSet) (opts : SetupOpts)
    (h : fs.updatePoll = true ∨ fs.inventoryPoll = true ∨ fs.retryPoll = true) :
    (handleImplicitFlags fs opts).fs.demoPolling = true ∧
    (handleImplicitFlags fs opts).opts.demoIntervals = false := by
  obtain ⟨c, d, dt, un, pw, su, sip, sc, tt, ipoll, rpoll, upoll, hm, dm, ds, dp, q⟩ := fs
  dsimp only at h
  rcases h with h1 | h1 | h1
  · subst h1
    cases ipoll <;> cases rpoll <;> cases dm <;> cases su <;> cases sip <;>
      by_cases hsu : opts.serverURL = defaultServerURL <;>
      simp [handleImplicitFlags, hsu]
  · subst h1
    cases upoll <;> cases rpoll <;> cases dm <;> cases su <;> cases sip <;>
      by_cases hsu : opts.serverURL = defaultServerURL <;>
      simp [handleImplicitFlags, hsu]
  · subst h1
    cases upoll <;> cases ipoll <;> cases dm <;> cases su <;> cases sip <;>
      by_cases hsu : opts.serverURL = defaultServerURL <;>
      simp [handleImplicitFlags, hsu]

set_option maxHeartbeats 2000000 in
/-- C4: the flag-normalization step is idempotent: running
`handleImplicitFlags` a second time on its own output yields exactly the
same flag bits, the same Option Model and the same returned error as
running it once. -/
theorem c4_normalization_idempotent (fs : FlagSet) (opts : SetupOpts) :
    handleImplicitFlags (handleImplicitFlags fs opts).fs
      (handleImplicitFlags fs opts).opts = handleImplicitFlags fs opts := by
  obtain ⟨c, d, dt, un, pw, su, sip, sc, tt, ipoll, rpoll, upoll, hm, dm, ds, dp, q⟩ := fs
  cases dm <;> cases upoll <;> cases ipoll <;> cases rpoll <;> cases su <;> cases sip <;>
    by_cases hsu : opts.serverURL = defaultServerURL <;>
    simp [handleImplicitFlags, hsu]

/-! ## Unpacking a completed pipeline run -/

theorem setupPipeline_ok_inv {fuel : Nat} {fs : FlagSet} {opts : SetupOpts} {w : World}
    {stateDirPath : String} {config0 : MenderConfigFromFile} {stdin : List String}
    {attempts : List LoginAttempt} {cfg : MenderConfigFromFile} {rs : RunState}
    (h : setupPipeline fuel fs opts w stateDirPath config0 stdin attempts = .ok cfg rs) :
    cfg = saveConfigOptions stateDirPath rs.opts config0 ∧
    WizInv (handleImplicitFlags fs opts).fs (handleImplicitFlags fs opts).opts .done rs := by
  unfold setupPipeline at h
  split at h
  · exact PipeRes.noConfusion h
  · rename_i herr
    split at h
    · rename_i rs2 hrun
      injection h with h1 h2
      subst h1; subst h2
      exact ⟨rfl, runWizard_inv fuel _ _ _
        (wizInv_init (handleImplicitFlags fs opts).fs
          (handleImplicitFlags fs opts).opts stdin attempts) hrun⟩
    · exact PipeRes.noConfusion h
    · exact PipeRes.noConfusion h
    · exact PipeRes.noConfusion h

/-! ## Field characterization of the persisted configuration -/

theorem saveConfigOptions_spec (sd : String) (opts : SetupOpts)
    (cfg0 : MenderConfigFromFile) :
    (saveConfigOptions sd opts cfg0).updatePollIntervalSeconds =
      (if opts.demoIntervals = true then
        (if minimumPollInterval < opts.updatePollInterval then opts.updatePollInterval
         else demoUpdatePoll)
       else opts.updatePollInterval) ∧
    (saveConfigOptions sd opts cfg0).inventoryPollIntervalSeconds =
      (if opts.demoIntervals = true then
        (if minimumPollInterval < opts.invPollInterval then opts.invPollInterval
         else demoInventoryPoll)
       else opts.invPollInterval) ∧
    (saveConfigOptions sd opts cfg0).retryPollIntervalSeconds =
      (if opts.demoIntervals = true then
        (if minimumPollInterval < opts.retryPollInterval then opts.retryPollInterval
         else demoRetryPoll)
       else opts.retryPollInterval) ∧
    (saveConfigOptions sd opts cfg0).serverCertificate =
      (if opts.demoServer && !opts.hostedMender then getMenderDemoCertPath
       else opts.serverCert) ∧
    (saveConfigOptions sd opts cfg0).tenantToken = opts.tenantToken ∧
    (saveConfigOptions sd opts cfg0).servers = [{ serverURL := opts.serverURL }] ∧
    (saveConfigOptions sd opts cfg0).serverURL = "" := by
  unfold saveConfigOptions
  split_ifs <;> simp_all <;> (try split_ifs) <;> (try simp_all)

/-! ## Claim C1: the state transitions follow the fixed table -/

/-- The transition table of the specification, as a relation between the
state just executed, the run state it produced, and the state it moved to. -/
def wizTransitionTable : WizState → RunState → WizState → Prop
  | .deviceType, _, next => next = .hostedMender
  | .hostedMender, rs', next =>
    next = (if rs'.opts.hostedMender then .credentials else .demoServer)
  | .demoServer, rs', next =>
    next = (if rs'.opts.demoServer then .serverIP else .serverURL)
  | .serverURL, _, next => next = .serverCert
  | .serverIP, _, next => next = .polling
  | .serverCert, _, next => next = .polling
  | .credentials, _, next => next = .polling
  | .polling, _, next => next = .done
  | .done, _, next => next = .done

/-- The configurations visited by a wizard run (`doSetup`'s loop) started at
`stateDeviceType` with run state `rs0`. -/
inductive ReachableW (fs : FlagSet) (w : World) (rs0 : RunState) :
    WizState → RunState → Prop where
  | init : ReachableW fs w rs0 .deviceType rs0
  | step {st : WizState} {rs : RunState} {next : WizState} {rs' : RunState} :
      ReachableW fs w rs0 st rs → stepState fs w st rs = .ok next rs' →
      ReachableW fs w rs0 next rs'

theorem reachableW_inv {fs : FlagSet} {w : World} {rs0 : RunState} {st : WizState}
    {rs : RunState} (h : ReachableW fs w rs0 st rs) : WizInv fs rs0.opts st rs := by
  induction h with
  | init => exact wizInv_init fs rs0.opts rs0.stdin rs0.attempts
  | step hr hstep ih => exact stepState_inv ih hstep

/-- C1: in every run of the wizard, every successful state step follows the
spec's fixed transition table: DEVICE_TYPE → HOSTED_MENDER; HOSTED_MENDER →
CREDENTIALS when hosted mode is chosen, else DEMO_SERVER; DEMO_SERVER →
SERVER_IP when demo is chosen (hosted mode is always off there), else
SERVER_URL; SERVER_URL → SERVER_CERT; SERVER_IP, SERVER_CERT and CREDENTIALS
→ POLLING; POLLING → DONE. -/
theorem c1_transitions_follow_table {fs : FlagSet} {w : World} {rs0 : RunState}
    {st : WizState} {rs : RunState} {next : WizState} {rs' : RunState}
    (hreach : ReachableW fs w rs0 st rs)
    (hstep : stepState fs w st rs = .ok next rs') :
    wizTransitionTable st rs' next := by
  have hInv := reachableW_inv hreach
  cases st with
  | deviceType =>
    simp only [wizTransitionTable]
    exact (askDeviceType_ok hstep).1
  | hostedMender =>
    obtain ⟨_, _, _, _, hor⟩ := askHostedMender_ok hstep
    simp only [wizTransitionTable]
    rcases hor with ⟨hn, hhm, _⟩ | ⟨hn, hhm, _⟩ <;> rw [hn, hhm] <;> simp
  | demoServer =>
    obtain ⟨_, _, _, _, _, himp⟩ := askDemoServer_ok hstep
    have hh := hInv.notHosted (Or.inl rfl)
    simp only [wizTransitionTable]
    rcases himp hh with ⟨hn, hds⟩ | ⟨hn, hds⟩ <;> rw [hn, hds] <;> simp
  | serverURL =>
    simp only [wizTransitionTable]
    exact (askServerURL_ok hstep).1
  | serverIP =>
    simp only [wizTransitionTable]
    exact (askServerIP_ok hstep).1
  | serverCert =>
    simp only [wizTransitionTable]
    exact (askServerCert_ok hstep).1
  | credentials =>
    simp only [wizTransitionTable]
    exact (askHostedMenderCredentials_ok hstep).1
  | polling =>
    simp only [wizTransitionTable]
    exact (askPollingIntervals_ok hstep).1
  | done =>
    simp only [stepState] at hstep
    injection hstep with h1 h2
    simp only [wizTransitionTable]
    exact h1.symm

def c1fs : FlagSet := { deviceType := true }

def c1w : World := {}

def c1rs : RunState := ⟨{ initialOpts with deviceType := "rpi3" }, [], []⟩

theorem c1_witness : wizTransitionTable .deviceType c1rs .hostedMender :=
  @c1_transitions_follow_table c1fs c1w c1rs .deviceType c1rs .hostedMender c1rs
    ReachableW.init (by decide)

/-! ## Claim C5: conflicting server flags abort before any prompt -/

/-- C5: when both the server-url flag and the server-ip flag are explicitly
set, the setup pipeline returns the fatal configuration-conflict error from
`handleImplicitFlags`, before any wizard state runs; the result is the same
for every stdin content and every login-attempt sequence, so no prompt is
ever shown. -/
theorem c5_conflicting_server_flags_fatal {fuel : Nat} {fs : FlagSet}
    {opts : SetupOpts} {w : World} {sd : String} {cfg0 : MenderConfigFromFile}
    {stdin : List String} {attempts : List LoginAttempt}
    (h1 : fs.serverURL = true) (h2 : fs.serverIP = true) :
    setupPipeline fuel fs opts w sd cfg0 stdin attempts =
      .confErr errMsgConflictingArguments := by
  have herr : (handleImplicitFlags fs opts).err = some errMsgConflictingArguments := by
    simp [handleImplicitFlags, h1, h2]
  simp [setupPipeline, herr]

theorem c5_witness :
    setupPipeline 9 { serverURL := true, serverIP := true } initialOpts {} "/var/lib/mender"
      {} ["rpi3"] [] = .confErr errMsgConflictingArguments :=
  c5_conflicting_server_flags_fatal rfl rfl

/-! ## Claim C9: the overlapping-config-flag branch is dead -/

/-- C9: the condition `ctx.IsSet("config") && !ctx.IsSet("config")` of the
overlapping-global-flags branch in `setupCLIHandler` is false for every flag
state, so the first branch is unreachable and `runOptions.config` is always
assigned from `setupOptions.configPath`. -/
theorem c9_config_branch_dead (fs : FlagSet) (runConfig setupConfigPath : String) :
    (fs.config && !fs.config) = false ∧
    mergeConfigPathFlags fs runConfig setupConfigPath =
      (setupConfigPath, setupConfigPath) := by
  constructor
  · cases h : fs.config <;> simp
  · unfold mergeConfigPathFlags
    cases h : fs.config <;> simp

/-! ## Extractors for concrete pipeline results -/

def PipeRes.isOkOut : PipeRes → Bool
  | .ok _ _ => true
  | _ => false

def PipeRes.cfgOut : PipeRes → MenderConfigFromFile
  | .ok cfg _ => cfg
  | _ => {}

def PipeRes.rsOut : PipeRes → RunState
  | .ok _ rs => rs
  | _ => { opts := {}, stdin := [], attempts := [] }

/-! ## Claim C2: demo polling intervals and explicit poll flags -/

/-- C2 (amended): in every completed wizard run, (a) if `demoIntervals` is
true at completion the three persisted poll intervals are the fixed demo
values (update 5, inventory 5, retry 30), whatever other flag values were
supplied; (b) if any of the update-poll / inventory-poll / retry-poll flags
was explicitly set, demo polling is disabled at completion, unconditionally;
(c) an explicitly set flag value at or above the minimum poll interval is
persisted unchanged; (d) an explicitly set flag value below the minimum is
not adopted: the persisted value meets the minimum and differs from the flag
value, because it comes from the validation prompt loop, which consumes a
further answer on every below-minimum numeric answer and accepts the first
numeric answer at or above the minimum. -/
theorem c2_amended_poll_intervals {fuel : Nat} {fs : FlagSet} {opts : SetupOpts}
    {w : World} {sd : String} {cfg0 : MenderConfigFromFile} {stdin : List String}
    {att : List LoginAttempt} {cfg : MenderConfigFromFile} {rs : RunState}
    {dflt vb : Int} {rsp : String} {stdin0 : List String}
    (h : setupPipeline fuel fs opts w sd cfg0 stdin att = .ok cfg rs) :
    (rs.opts.demoIntervals = true →
      cfg.updatePollIntervalSeconds = demoUpdatePoll ∧
      cfg.inventoryPollIntervalSeconds = demoInventoryPoll ∧
      cfg.retryPollIntervalSeconds = demoRetryPoll) ∧
    ((fs.updatePoll = true ∨ fs.inventoryPoll = true ∨ fs.retryPoll = true) →
      rs.opts.demoIntervals = false) ∧
    (fs.updatePoll = true → ¬(opts.updatePollInterval < minimumPollInterval) →
      cfg.updatePollIntervalSeconds = opts.updatePollInterval) ∧
    (fs.inventoryPoll = true → ¬(opts.invPollInterval < minimumPollInterval) →
      cfg.inventoryPollIntervalSeconds = opts.invPollInterval) ∧
    (fs.retryPoll = true → ¬(opts.retryPollInterval < minimumPollInterval) →
      cfg.retryPollIntervalSeconds = opts.retryPollInterval) ∧
    (fs.updatePoll = true → opts.updatePollInterval < minimumPollInterval →
      ¬(cfg.updatePollIntervalSeconds < minimumPollInterval) ∧
      ¬(cfg.updatePollIntervalSeconds = opts.updatePollInterval)) ∧
    (fs.inventoryPoll = true → opts.invPollInterval < minimumPollInterval →
      ¬(cfg.inventoryPollIntervalSeconds < minimumPollInterval) ∧
      ¬(cfg.inventoryPollIntervalSeconds = opts.invPollInterval)) ∧
    (fs.retryPoll = true → opts.retryPollInterval < minimumPollInterval →
      ¬(cfg.retryPollIntervalSeconds < minimumPollInterval) ∧
      ¬(cfg.retryPollIntervalSeconds = opts.retryPollInterval)) ∧
    (atoi rsp = some vb → vb < minimumPollInterval →
      pollLoop dflt rsp stdin0 =
        (match stdin0 with
         | [] => PRes.ioErr
         | s :: r => pollLoop dflt s r)) ∧
    (atoi rsp = some vb → ¬(vb < minimumPollInterval) →
      pollLoop dflt rsp stdin0 = .ok vb stdin0) := by
  obtain ⟨hcfg, hinv⟩ := setupPipeline_ok_inv h
  obtain ⟨f1, f2, f3, f4, f5, f6, f7, f8⟩ := handleImplicitFlags_fields fs opts
  obtain ⟨s1, s2, s3, s4, s5, s6, s7⟩ := saveConfigOptions_spec sd rs.opts cfg0
  subst hcfg
  have hdis : (fs.updatePoll = true ∨ fs.inventoryPoll = true ∨ fs.retryPoll = true) →
      rs.opts.demoIntervals = false := by
    intro hor
    have hdp := handleImplicitFlags_pollFlagDisablesDemo fs opts hor
    exact (hinv.demoPollingDone rfl hdp.1).trans hdp.2
  have hloopne : ∀ s : String, ∀ v : Int, atoi s = some v → ¬(s = "") := by
    intro s v hatoi hs
    rw [hs] at hatoi
    have h0 : atoi "" = none := by decide
    rw [h0] at hatoi
    exact Option.noConfusion hatoi
  refine ⟨?_, hdis, ?_, ?_, ?_, ?_, ?_, ?_, ?_, ?_⟩
  · intro hdi
    obtain ⟨hu, hi, hr⟩ := hinv.demoDone rfl hdi
    exact ⟨by rw [s1, hdi, hu]; simp, by rw [s2, hdi, hi]; simp,
           by rw [s3, hdi, hr]; simp⟩
  · intro hset hge
    have hdi := hdis (Or.inl hset)
    have hadopt := hinv.updateAdopt rfl hdi (f2.trans hset) (by rw [f6]; exact hge)
    rw [s1, hdi]
    simp only [Bool.false_eq_true, if_false]
    rw [hadopt, f6]
  · intro hset hge
    have hdi := hdis (Or.inr (Or.inl hset))
    have hadopt := hinv.invAdopt rfl hdi (f3.trans hset) (by rw [f7]; exact hge)
    rw [s2, hdi]
    simp only [Bool.false_eq_true, if_false]
    rw [hadopt, f7]
  · intro hset hge
    have hdi := hdis (Or.inr (Or.inr hset))
    have hadopt := hinv.retryAdopt rfl hdi (f4.trans hset) (by rw [f8]; exact hge)
    rw [s3, hdi]
    simp only [Bool.false_eq_true, if_false]
    rw [hadopt, f8]
  · intro hset hlt
    have hdi := hdis (Or.inl hset)
    have hmin := (hinv.pollMinDone rfl hdi).1
    have hcfgu : (saveConfigOptions sd rs.opts cfg0).updatePollIntervalSeconds =
        rs.opts.updatePollInterval := by
      rw [s1, hdi]
      simp
    rw [hcfgu]
    exact ⟨hmin, fun heq => hmin (by rw [heq]; exact hlt)⟩
  · intro hset hlt
    have hdi := hdis (Or.inr (Or.inl hset))
    have hmin := (hinv.pollMinDone rfl hdi).2.1
    have hcfgi : (saveConfigOptions sd rs.opts cfg0).inventoryPollIntervalSeconds =
        rs.opts.invPollInterval := by
      rw [s2, hdi]
      simp
    rw [hcfgi]
    exact ⟨hmin, fun heq => hmin (by rw [heq]; exact hlt)⟩
  · intro hset hlt
    have hdi := hdis (Or.inr (Or.inr hset))
    have hmin := (hinv.pollMinDone rfl hdi).2.2
    have hcfgr : (saveConfigOptions sd rs.opts cfg0).retryPollIntervalSeconds =
        rs.opts.retryPollInterval := by
      rw [s3, hdi]
      simp
    rw [hcfgr]
    exact ⟨hmin, fun heq => hmin (by rw [heq]; exact hlt)⟩
  · intro hatoi hlt
    have hne := hloopne rsp vb hatoi
    cases stdin0 <;> (simp only [pollLoop]; simp [hne, hatoi, hlt])
  · intro hatoi hge
    have hne := hloopne rsp vb hatoi
    cases stdin0 <;> (simp only [pollLoop]; simp [hne, hatoi, hge])

def c2fs : FlagSet :=
  { quiet := true, deviceType := true, hostedMender := true, demoServer := true,
    demoPolling := true, updatePoll := true }

def c2opts : SetupOpts :=
  { initialOpts with
    deviceType := "rpi3"
    demoServer := true
    demoIntervals := true
    updatePollInterval := 3 }

def c2run : PipeRes :=
  setupPipeline 20 c2fs c2opts {} "/var/lib/mender" {} ["", "10", "", ""] []

/-- C2 counterexample: with the update-poll flag explicitly set to 3 (below
the minimum of 5) demo polling is indeed disabled, but the wizard re-prompts
and persists the typed answer 10, not the explicit flag value: the claim
"that explicit flag value is adopted" is false as stated. -/
theorem c2_counterexample :
    c2fs.updatePoll = true ∧ c2opts.updatePollInterval = 3 ∧
    c2run.isOkOut = true ∧
    c2run.rsOut.opts.demoIntervals = false ∧
    c2run.cfgOut.updatePollIntervalSeconds = 10 ∧
    ¬(c2run.cfgOut.updatePollIntervalSeconds = c2opts.updatePollInterval) := by
  refine ⟨rfl, rfl, ?_, ?_, ?_, ?_⟩ <;> decide

def c2wfs : FlagSet :=
  { quiet := true, deviceType := true, hostedMender := true, demoServer := true,
    updatePoll := true }

def c2wopts : SetupOpts :=
  { initialOpts with
    deviceType := "rpi3"
    demoServer := true
    updatePollInterval := 7 }

def c2wrun : PipeRes :=
  setupPipeline 20 c2wfs c2wopts {} "/var/lib/mender" {} ["", "", ""] []

theorem c2_witness :
    c2wrun.rsOut.opts.demoIntervals = false ∧
    c2wrun.cfgOut.updatePollIntervalSeconds = c2wopts.updatePollInterval ∧
    c2run.rsOut.opts.demoIntervals = false ∧
    ¬(c2run.cfgOut.updatePollIntervalSeconds < minimumPollInterval) ∧
    ¬(c2run.cfgOut.updatePollIntervalSeconds = c2opts.updatePollInterval) ∧
    pollLoop defaultUpdatePoll "3" ["10"] = pollLoop defaultUpdatePoll "10" [] ∧
    pollLoop defaultUpdatePoll "10" [] = .ok 10 [] := by
  have h1 : setupPipeline 20 c2wfs c2wopts {} "/var/lib/mender" {} ["", "", ""] [] =
      .ok c2wrun.cfgOut c2wrun.rsOut := by decide
  have h2 : setupPipeline 20 c2fs c2opts {} "/var/lib/mender" {} ["", "10", "", ""] [] =
      .ok c2run.cfgOut c2run.rsOut := by decide
  have hw := @c2_amended_poll_intervals 20 c2wfs c2wopts {} "/var/lib/mender" {}
    ["", "", ""] [] c2wrun.cfgOut c2wrun.rsOut 0 0 "" [] h1
  have hx := @c2_amended_poll_intervals 20 c2fs c2opts {} "/var/lib/mender" {}
    ["", "10", "", ""] [] c2run.cfgOut c2run.rsOut defaultUpdatePoll 3 "3" ["10"] h2
  have hy := @c2_amended_poll_intervals 20 c2fs c2opts {} "/var/lib/mender" {}
    ["", "10", "", ""] [] c2run.cfgOut c2run.rsOut defaultUpdatePoll 10 "10" [] h2
  exact ⟨hw.2.1 (Or.inl rfl), hw.2.2.1 rfl (by decide), hx.2.1 (Or.inl rfl),
    (hx.2.2.2.2.2.1 rfl (by decide)).1, (hx.2.2.2.2.2.1 rfl (by decide)).2,
    hx.2.2.2.2.2.2.2.2.1 (by decide) (by decide),
    hy.2.2.2.2.2.2.2.2.2 (by decide) (by decide)⟩

/-! ## Claim C3: demo-server runs always persist the demo certificate -/

/-- C3 (amended): in every completed wizard run with `demoServer` true and
`hostedMender` false at completion, the persisted certificate path is the
demo certificate path unconditionally — an explicitly supplied certificate is
ignored in this mode (see the counterexample). -/
theorem c3_amended_demo_cert {fuel : Nat} {fs : FlagSet} {opts : SetupOpts}
    {w : World} {sd : String} {cfg0 : MenderConfigFromFile} {stdin : List String}
    {att : List LoginAttempt} {cfg : MenderConfigFromFile} {rs : RunState}
    (h : setupPipeline fuel fs opts w sd cfg0 stdin att = .ok cfg rs)
    (hds : rs.opts.demoServer = true) (hhm : rs.opts.hostedMender = false) :
    cfg.serverCertificate = getMenderDemoCertPath := by
  obtain ⟨hcfg, _⟩ := setupPipeline_ok_inv h
  obtain ⟨_, _, _, s4, _, _, _⟩ := saveConfigOptions_spec sd rs.opts cfg0
  subst hcfg
  rw [s4, hds, hhm]
  simp

def c3fs : FlagSet :=
  { quiet := true, deviceType := true, hostedMender := true, demoServer := true,
    serverCert := true, demoPolling := true }

def c3opts : SetupOpts :=
  { initialOpts with
    deviceType := "rpi3"
    demoServer := true
    demoIntervals := true
    serverCert := "/my/cert.crt" }

def c3run : PipeRes := setupPipeline 20 c3fs c3opts {} "/var/lib/mender" {} [""] []

/-- C3 counterexample: a completed demo-server run in which a certificate was
explicitly supplied (`--server-cert /my/cert.crt`, flag set) still persists
the demo certificate path — the supplied certificate is not used, so the
claim's "unless a certificate was explicitly supplied" exception is false. -/
theorem c3_counterexample :
    c3fs.serverCert = true ∧ c3opts.serverCert = "/my/cert.crt" ∧
    c3run.isOkOut = true ∧
    c3run.rsOut.opts.demoServer = true ∧
    c3run.rsOut.opts.hostedMender = false ∧
    c3run.cfgOut.serverCertificate = getMenderDemoCertPath ∧
    ¬(c3run.cfgOut.serverCertificate = "/my/cert.crt") := by
  refine ⟨rfl, rfl, ?_, ?_, ?_, ?_, ?_⟩ <;> decide

theorem c3_witness : c3run.cfgOut.serverCertificate = getMenderDemoCertPath := by
  have h : setupPipeline 20 c3fs c3opts {} "/var/lib/mender" {} [""] [] =
      .ok c3run.cfgOut c3run.rsOut := by decide
  exact c3_amended_demo_cert h (by decide) (by decide)

/-! ## Claim C6: hosted runs persist the hosted URL; the certificate is the
supplied option -/

/-- C6 (amended): in every completed wizard run with `hostedMender` true and
`demoServer` false at completion, the persisted server list is the single
fixed hosted endpoint, and the persisted certificate path equals the
initially supplied `serverCert` option — which is empty exactly when no
certificate was explicitly supplied (an explicitly supplied certificate is
persisted, see the counterexample). -/
theorem c6_amended_hosted_url_cert {fuel : Nat} {fs : FlagSet} {opts : SetupOpts}
    {w : World} {sd : String} {cfg0 : MenderConfigFromFile} {stdin : List String}
    {att : List LoginAttempt} {cfg : MenderConfigFromFile} {rs : RunState}
    (h : setupPipeline fuel fs opts w sd cfg0 stdin att = .ok cfg rs)
    (hhm : rs.opts.hostedMender = true) (hds : rs.opts.demoServer = false) :
    cfg.servers = [{ serverURL := hostedMenderURL }] ∧
    cfg.serverCertificate = opts.serverCert ∧
    (opts.serverCert = "" → cfg.serverCertificate = "") := by
  obtain ⟨hcfg, hinv⟩ := setupPipeline_ok_inv h
  obtain ⟨hurl, hcert⟩ := hinv.hostedPersist (Or.inr (Or.inr rfl)) hhm
  have hc5 := (handleImplicitFlags_fields fs opts).2.2.2.2.1
  have hcert2 : rs.opts.serverCert = opts.serverCert := hcert.trans hc5
  obtain ⟨_, _, _, s4, _, s6, _⟩ := saveConfigOptions_spec sd rs.opts cfg0
  subst hcfg
  refine ⟨by rw [s6, hurl], ?_, ?_⟩
  · rw [s4, hds]
    simp [hcert2]
  · intro h0
    rw [s4, hds]
    simp [hcert2, h0]

def c6fs : FlagSet :=
  { quiet := true, deviceType := true, hostedMender := true, tenantToken := true,
    serverCert := true, demoPolling := true }

def c6opts : SetupOpts :=
  { initialOpts with
    deviceType := "rpi3"
    hostedMender := true
    tenantToken := "tok"
    demoIntervals := true
    serverCert := "/my/cert.crt" }

def c6run : PipeRes := setupPipeline 20 c6fs c6opts {} "/var/lib/mender" {} [] []

/-- C6 counterexample: a completed hosted run (hosted true, demo server
false) in which a certificate was explicitly supplied persists that
certificate path — the persisted certificate path is not empty, refuting the
claim's "the persisted certificate path is empty (no certificate is set)". -/
theorem c6_counterexample :
    c6fs.serverCert = true ∧
    c6run.isOkOut = true ∧
    c6run.rsOut.opts.hostedMender = true ∧
    c6run.rsOut.opts.demoServer = false ∧
    c6run.cfgOut.servers = [{ serverURL := hostedMenderURL }] ∧
    c6run.cfgOut.serverCertificate = "/my/cert.crt" ∧
    ¬(c6run.cfgOut.serverCertificate = "") := by
  refine ⟨rfl, ?_, ?_, ?_, ?_, ?_, ?_⟩ <;> decide

def c6wfs : FlagSet :=
  { quiet := true, deviceType := true, hostedMender := true, tenantToken := true,
    demoPolling := true }

def c6wopts : SetupOpts :=
  { initialOpts with
    deviceType := "rpi3"
    hostedMender := true
    tenantToken := "tok"
    demoIntervals := true }

def c6wrun : PipeRes := setupPipeline 20 c6wfs c6wopts {} "/var/lib/mender" {} [] []

theorem c6_witness :
    c6wrun.cfgOut.servers = [{ serverURL := hostedMenderURL }] ∧
    c6wrun.cfgOut.serverCertificate = "" := by
  have h : setupPipeline 20 c6wfs c6wopts {} "/var/lib/mender" {} [] [] =
      .ok c6wrun.cfgOut c6wrun.rsOut := by decide
  obtain ⟨ha, _, hc⟩ := c6_amended_hosted_url_cert h (by decide) (by decide)
  exact ⟨ha, hc rfl⟩

/-! ## Claim C10: the demo-server IP never becomes the persisted URL -/

/-- C10: in every completed demo-server run (demo server on, hosted mode off
at completion) in which the server-url flag was not explicitly set, the
persisted configuration's single server entry is the fixed default URL, so
the IP entered at the SERVER_IP prompt never becomes the persisted server
URL; moreover the persisted configuration is entirely independent of the
`serverIP` option (it is only used for the hosts-file route). -/
theorem c10_demo_ip_never_persisted {fuel : Nat} {fs : FlagSet} {opts : SetupOpts}
    {w : World} {sd : String} {cfg0 : MenderConfigFromFile} {stdin : List String}
    {att : List LoginAttempt} {cfg : MenderConfigFromFile} {rs : RunState}
    (h : setupPipeline fuel fs opts w sd cfg0 stdin att = .ok cfg rs)
    (hds : rs.opts.demoServer = true) (hhm : rs.opts.hostedMender = false)
    (hsu : fs.serverURL = false) :
    cfg.servers = [{ serverURL := defaultServerURL }] ∧
    (∀ ip : String, saveConfigOptions sd { rs.opts with serverIP := ip } cfg0 =
      saveConfigOptions sd rs.opts cfg0) := by
  obtain ⟨hcfg, hinv⟩ := setupPipeline_ok_inv h
  have hflag : (handleImplicitFlags fs opts).fs.serverURL = false :=
    (handleImplicitFlags_fields fs opts).1.trans hsu
  have hurl := hinv.demoURLP (Or.inr rfl) hds hhm hflag
  obtain ⟨_, _, _, _, _, s6, _⟩ := saveConfigOptions_spec sd rs.opts cfg0
  subst hcfg
  exact ⟨by rw [s6, hurl], fun ip => rfl⟩

def c10fs : FlagSet :=
  { quiet := true, deviceType := true, hostedMender := true, demoServer := true,
    demoPolling := true }

def c10opts : SetupOpts :=
  { initialOpts with
    deviceType := "rpi3"
    demoServer := true
    demoIntervals := true }

def c10run : PipeRes :=
  setupPipeline 20 c10fs c10opts {} "/var/lib/mender" {} ["1.2.3.4"] []

theorem c10_witness :
    c10run.cfgOut.servers = [{ serverURL := defaultServerURL }] ∧
    c10run.rsOut.opts.serverIP = "1.2.3.4" := by
  have h : setupPipeline 20 c10fs c10opts {} "/var/lib/mender" {} ["1.2.3.4"] [] =
      .ok c10run.cfgOut c10run.rsOut := by decide
  exact ⟨(c10_demo_ip_never_persisted h (by decide) (by decide) rfl).1, by decide⟩

/-! ## Claim C7: device-type validation -/

theorem badChar_ne_empty {s : String}
    (h : s.toList.any (fun c => !(isDeviceChar c)) = true) : ¬(s = "") := by
  intro hs
  subst hs
  exact absurd h (by decide)

theorem badChar_not_valid {s : String}
    (h : s.toList.any (fun c => !(isDeviceChar c)) = true) :
    validDevice s = false := by
  rcases List.any_eq_true.mp h with ⟨c, hc, hbad⟩
  have hall : s.toList.all isDeviceChar = false := by
    cases hallc : s.toList.all isDeviceChar
    · rfl
    · rw [List.all_eq_true.mp hallc c hc] at hbad
      simp at hbad
  show (!(s = "") && s.toList.all isDeviceChar) = false
  rw [hall, Bool.and_false]

/-- C7: the DEVICE_TYPE state accepts a device-type exactly when it matches
`^[A-Za-z0-9-_]+$`: (a) a flag value matching the pattern is accepted
immediately with no prompting and no state change besides moving to
HOSTED_MENDER; (b) a typed value matching the pattern is accepted
immediately after the single initial prompt; (c) a typed value containing a
character outside the class causes a re-prompt (another stdin line is
consumed before the loop can finish); (d) whenever the state completes
successfully the stored device type matches the pattern and is non-empty. -/
theorem c7_device_type_validation (w : World) (rs : RunState) (s : String)
    (rest : List String) (dflt : String) :
    (validDevice rs.opts.deviceType = true →
      askDeviceType w rs = .ok .hostedMender rs) ∧
    (validDevice rs.opts.deviceType = false → validDevice s = true →
      rs.stdin = s :: rest →
      askDeviceType w rs = .ok .hostedMender
        { rs with opts := { rs.opts with deviceType := s }, stdin := rest }) ∧
    (s.toList.any (fun c => !(isDeviceChar c)) = true →
      deviceTypeLoop dflt s rest =
        (match rest with
         | [] => PRes.ioErr
         | t :: r => deviceTypeLoop dflt t r)) ∧
    (∀ next rs', askDeviceType w rs = .ok next rs' →
      validDevice rs'.opts.deviceType = true ∧ ¬(rs'.opts.deviceType = "")) := by
  refine ⟨?_, ?_, ?_, ?_⟩
  · intro h
    simp [askDeviceType, h]
  · intro hinv hval hstdin
    have hne : s ≠ "" := validDevice_ne_empty hval
    have hloop : deviceTypeLoop w.defaultDevType s rest = .ok s rest := by
      cases rest <;> (simp only [deviceTypeLoop]; simp [hne, hval])
    simp [askDeviceType, hinv, hstdin, promptUser, PRes.bind, hloop]
  · intro hbad
    have hne : ¬(s = "") := badChar_ne_empty hbad
    have hval : validDevice s = false := badChar_not_valid hbad
    cases rest <;> (simp only [deviceTypeLoop]; simp [hne, hval])
  · intro next rs' h
    obtain ⟨_, _, _, _, _, _, _, hvd⟩ := askDeviceType_ok h
    exact ⟨hvd, validDevice_ne_empty hvd⟩

def c7w : World := {}

def c7rs : RunState := ⟨{ initialOpts with deviceType := "rpi3" }, [], []⟩

theorem c7_witness :
    askDeviceType c7w c7rs = .ok .hostedMender c7rs ∧
    deviceTypeLoop "unknown" "bad name" ["good-name"] =
      (match ["good-name"] with
       | [] => PRes.ioErr
       | t :: r => deviceTypeLoop "unknown" t r) := by
  refine ⟨?_, ?_⟩
  · exact (c7_device_type_validation c7w c7rs "bad name" ["good-name"] "unknown").1
      (by decide)
  · exact (c7_device_type_validation c7w c7rs "bad name" ["good-name"] "unknown").2.2.1
      (by decide)

/-! ## Claim C8: login-attempt outcome handling -/

/-- C8: in the remote credential check, an HTTP 401 response re-prompts for
username and password (via `askCredentials`) and retries the whole login on
the remaining attempts; a name-resolution failure prints the connectivity
message, re-prompts for credentials and retries likewise; and any status
code other than 200 and 401 aborts with the "unexpected status" error
immediately, whatever attempts would have remained — it is not retried. -/
theorem c8_login_outcomes (w : World) (opts : SetupOpts) (stdin : List String)
    (opts' : SetupOpts) (stdin' : List String) (rest : List LoginAttempt)
    (code : Nat) (body : String) :
    (askCredentials w opts stdin = .ok opts' stdin' →
      tryLoginhostedMender w opts stdin (.dnsFailure :: rest) =
        tryLoginhostedMender w opts' stdin' rest) ∧
    (askCredentials w opts stdin = .ok opts' stdin' →
      tryLoginhostedMender w opts stdin (.status 401 body :: rest) =
        tryLoginhostedMender w opts' stdin' rest) ∧
    (¬(code = 200) → ¬(code = 401) →
      tryLoginhostedMender w opts stdin (.status code body :: rest) =
        .unexpectedStatus code) := by
  refine ⟨?_, ?_, ?_⟩
  · intro hc
    simp [tryLoginhostedMender, hc]
  · intro hc
    simp [tryLoginhostedMender, hc]
  · intro h200 h401
    simp [tryLoginhostedMender, h200, h401]

def c8w : World := {}

def c8opts : SetupOpts := initialOpts

def c8opts2 : SetupOpts :=
  { initialOpts with username := "user@host.com", password := "pw" }

theorem c8_witness :
    tryLoginhostedMender c8w c8opts ["user@host.com", "pw"] [.dnsFailure] =
      tryLoginhostedMender c8w c8opts2 [] [] ∧
    tryLoginhostedMender c8w c8opts ["user@host.com", "pw"] [.status 401 "x"] =
      tryLoginhostedMender c8w c8opts2 [] [] ∧
    tryLoginhostedMender c8w c8opts ["user@host.com", "pw"] [.status 500 "x"] =
      .unexpectedStatus 500 := by
  have hc : askCredentials c8w c8opts ["user@host.com", "pw"] = .ok c8opts2 [] := by
    decide
  obtain ⟨t1, t2, t3⟩ :=
    c8_login_outcomes c8w c8opts ["user@host.com", "pw"] c8opts2 [] [] 500 "x"
  exact ⟨t1 hc, t2 hc, t3 (by decide) (by decide)⟩

end MenderSetup
